import Mathlib

/-!
Verification of the libva-v4l2-stateful driver against its specification.

The definitions below are a shallow embedding of the driver's C sources
(src/h264.c, src/hevc.c, src/vabackend.c, src/v4l2-backend.c, vabackend.h).
Bytes are modelled as `Nat` values below 256, machine integers as `Nat`/`Int`
with explicit reductions modulo 2^32 or 256 where the C types truncate,
buffers as `List Nat`, and kernel interactions as explicit oracles.
-/

set_option maxRecDepth 10000

/-! ### Bit-writer (identical in src/h264.c lines 19-76 and src/hevc.c lines 28-85) -/

/-- Truncation to a C `uint32_t` value. -/
def u32 (v : Nat) : Nat := v % 4294967296

/-- The BitWriter struct: `data`/`size` are modelled as a byte list
(`size = data.length`), `capacity`, `bit_pos` and the pending
`current_byte` as in the C struct. -/
structure BitWriter where
  data : List Nat
  capacity : Nat
  bit_pos : Nat
  current_byte : Nat
deriving Repr, DecidableEq

/-- bw_init: fresh writer over a buffer of the given capacity. -/
def bw_init (capacity : Nat) : BitWriter :=
  { data := [], capacity := capacity, bit_pos := 0, current_byte := 0 }

/-- One iteration of the loop body of bw_put_bits: shift one bit into
`current_byte` (a uint8, hence mod 256) and flush the byte when eight
bits accumulated, dropping it silently when the buffer is full. -/
def bw_put_bit (bw : BitWriter) (b : Bool) : BitWriter :=
  if bw.bit_pos + 1 = 8 then
    { bw with
      data := if bw.data.length < bw.capacity
              then bw.data ++ [(bw.current_byte * 2 + (if b then 1 else 0)) % 256]
              else bw.data,
      bit_pos := 0, current_byte := 0 }
  else
    { bw with
      bit_pos := bw.bit_pos + 1,
      current_byte := (bw.current_byte * 2 + (if b then 1 else 0)) % 256 }

/-- The loop of bw_put_bits: `for (int i = bits - 1; i >= 0; i--)` emits
bit `i` of `v`, most significant first. -/
def bw_put_bits_go (bw : BitWriter) (v : Nat) : Nat → BitWriter
  | 0 => bw
  | n + 1 => bw_put_bits_go (bw_put_bit bw (v.testBit n)) v n

/-- bw_put_bits: append the low `bits` bits of the uint32 `val`, MSB first. -/
def bw_put_bits (bw : BitWriter) (val : Nat) (bits : Nat) : BitWriter :=
  bw_put_bits_go bw (u32 val) bits

/-- The C while-loop `while (tmp) do bits++; tmp >>= 1` computing the bit
length of a uint32, as a fuel-bounded structural recursion (64 units of
fuel cover every uint32 value, so the bound never binds). -/
def bitLengthGo : Nat → Nat → Nat
  | 0, _ => 0
  | fuel + 1, v => if v = 0 then 0 else bitLengthGo fuel (v / 2) + 1

/-- Bit length of a uint32 value. -/
def bitLength (v : Nat) : Nat := bitLengthGo 64 v

/-- bw_put_ue: unsigned Exp-Golomb.  `val++` on a uint32, `bits` is the
bit length of the incremented value (the C while-loop), then
`bits - 1` leading zeros followed by the value in `bits` bits.  For
`bits = 0` the C loop bound `bits - 1 = -1` emits nothing, matching
Nat subtraction. -/
def bw_put_ue (bw : BitWriter) (val : Nat) : BitWriter :=
  bw_put_bits (bw_put_bits bw 0 (bitLength (u32 (u32 val + 1)) - 1))
    (u32 (u32 val + 1)) (bitLength (u32 (u32 val + 1)))

/-- bw_put_se: signed Exp-Golomb, `ue(-2v)` for `v <= 0`, `ue(2v - 1)`
otherwise, with the C cast of the int expression to uint32. -/
def bw_put_se (bw : BitWriter) (val : Int) : BitWriter :=
  if val ≤ 0 then bw_put_ue bw ((-val * 2).emod 4294967296).toNat
  else bw_put_ue bw ((val * 2 - 1).emod 4294967296).toNat

/-- bw_finish: when a partial byte is pending, shift in the RBSP stop bit,
left-align the byte (uint8 arithmetic) and flush it; otherwise do
nothing.  The C function returns `bw->size = data.length` of the result. -/
def bw_finish (bw : BitWriter) : BitWriter :=
  if 0 < bw.bit_pos then
    let c1 := (bw.current_byte * 2 + 1) % 256
    let pos := bw.bit_pos + 1
    let c2 := c1 * 2 ^ (8 - pos) % 256
    { bw with
      data := if bw.data.length < bw.capacity then bw.data ++ [c2] else bw.data,
      bit_pos := pos, current_byte := c2 }
  else bw

/-! ### Bit-sequence view of a writer -/

/-- The low `n` bits of `v`, most significant first. -/
def natBits (v : Nat) : Nat → List Bool
  | 0 => []
  | n + 1 => v.testBit n :: natBits v n

/-- All bits of a byte list, each byte MSB first. -/
def bytesToBits : List Nat → List Bool
  | [] => []
  | b :: bs => natBits b 8 ++ bytesToBits bs

/-- The bit sequence a writer has produced: the flushed bytes followed by
the pending bits of `current_byte`. -/
def writerBits (bw : BitWriter) : List Bool :=
  bytesToBits bw.data ++ natBits bw.current_byte bw.bit_pos

/-- Value of a bit list read MSB first. -/
def bitsToNat (l : List Bool) : Nat :=
  l.foldl (fun a b => 2 * a + (if b then 1 else 0)) 0

/-! ### Reference Exp-Golomb decoders, written from the standard ue(v)/se(v)
definitions (leading-zero count k, then the k+1-bit field whose value minus
one is the code number; se maps code number k to (-1)^(k+1) * ceil(k/2)). -/

/-- Number of leading false bits. -/
def countLeadingZeros : List Bool → Nat
  | [] => 0
  | b :: rest => if b then 0 else countLeadingZeros rest + 1

/-- Standard ue(v) decoding of a bit sequence; returns the decoded value
and the remaining bits, or none if the sequence is too short. -/
def decode_ue (bs : List Bool) : Option (Nat × List Bool) :=
  let k := countLeadingZeros bs
  if 2 * k + 1 ≤ bs.length then
    some (bitsToNat ((bs.drop k).take (k + 1)) - 1, (bs.drop k).drop (k + 1))
  else none

/-- Standard se(v) decoding: decode ue, then map code number k to
`(k+1)/2` when k is odd and `-(k/2)` when k is even. -/
def decode_se (bs : List Bool) : Option (Int × List Bool) :=
  (decode_ue bs).map (fun p =>
    (if p.1 % 2 = 0 then -((p.1 / 2 : Nat) : Int) else (((p.1 + 1) / 2 : Nat) : Int), p.2))

/-! ### Writer well-formedness and the append lemma -/

/-- Invariant maintained by all writer operations: fewer than eight pending
bits, and the pending byte holds exactly those bits. -/
def BWInv (bw : BitWriter) : Prop :=
  bw.bit_pos < 8 ∧ bw.current_byte < 2 ^ bw.bit_pos

/-- Total number of bits the writer has accepted. -/
def bitLen (bw : BitWriter) : Nat := 8 * bw.data.length + bw.bit_pos

/-! ### H.264 header synthesis (src/h264.c) -/

/-- The fields of VAPictureParameterBufferH264 that src/h264.c reads.
Bitfield flags are kept as naturals (the C code uses them both as truth
values and as bit values); signed QP offsets are integers. -/
structure H264PicParams where
  picture_width_in_mbs_minus1 : Nat
  picture_height_in_mbs_minus1 : Nat
  num_ref_frames : Nat
  bit_depth_luma_minus8 : Nat
  bit_depth_chroma_minus8 : Nat
  chroma_format_idc : Nat
  transform_8x8_mode_flag : Nat
  entropy_coding_mode_flag : Nat
  pic_order_present_flag : Nat
  weighted_pred_flag : Nat
  weighted_bipred_idc : Nat
  pic_init_qp_minus26 : Int
  pic_init_qs_minus26 : Int
  chroma_qp_index_offset : Int
  second_chroma_qp_index_offset : Int
  deblocking_filter_control_present_flag : Nat
  constrained_intra_pred_flag : Nat
  redundant_pic_cnt_present_flag : Nat
  log2_max_frame_num_minus4 : Nat
  pic_order_cnt_type : Nat
  log2_max_pic_order_cnt_lsb_minus4 : Nat
  delta_pic_order_always_zero_flag : Nat
  gaps_in_frame_num_value_allowed_flag : Nat
  frame_mbs_only_flag : Nat
  mb_adaptive_frame_field_flag : Nat
  direct_8x8_inference_flag : Nat
deriving Repr, DecidableEq

/-- h264_detect_profile (src/h264.c lines 81-101). -/
def h264_detect_profile (pic : H264PicParams) : Nat :=
  if 0 < pic.bit_depth_luma_minus8 ∨ 0 < pic.bit_depth_chroma_minus8 then
    if pic.chroma_format_idc = 3 then 244
    else if pic.chroma_format_idc = 2 then 122
    else 110
  else if pic.transform_8x8_mode_flag ≠ 0 then 100
  else if pic.entropy_coding_mode_flag ≠ 0 then 77
  else 66

/-- total_mbs x (num_ref_frames + 1) as computed in h264_calc_level. -/
def h264_max_dpb_mbs (pic : H264PicParams) : Nat :=
  (pic.picture_width_in_mbs_minus1 + 1) * (pic.picture_height_in_mbs_minus1 + 1) *
    (pic.num_ref_frames + 1)

/-- The if-chain of h264_calc_level (src/h264.c lines 107-129) over the
computed max_dpb_mbs value, verbatim, including the duplicate
max_dpb_mbs <= 184320 row. -/
def h264_calc_level_go (m : Nat) : Nat :=
  if m ≤ 396 then 10
  else if m ≤ 900 then 11
  else if m ≤ 2376 then 12
  else if m ≤ 4752 then 20
  else if m ≤ 8100 then 21
  else if m ≤ 18000 then 22
  else if m ≤ 20480 then 30
  else if m ≤ 36864 then 31
  else if m ≤ 32768 then 32
  else if m ≤ 110400 then 40
  else if m ≤ 184320 then 41
  else if m ≤ 184320 then 42
  else if m ≤ 696320 then 50
  else if m ≤ 696320 then 51
  else 52

/-- h264_calc_level (src/h264.c lines 107-129). -/
def h264_calc_level (pic : H264PicParams) : Nat :=
  h264_calc_level_go (h264_max_dpb_mbs pic)

/-- The level table as the specification describes it, rows in source
order; a refinement reference for C7 following the spec's words ("returns
the value of the first table row whose bound is satisfied"). -/
def h264_level_table : List (Nat × Nat) :=
  [(396, 10), (900, 11), (2376, 12), (4752, 20), (8100, 21), (18000, 22),
   (20480, 30), (36864, 31), (32768, 32), (110400, 40), (184320, 41),
   (184320, 42), (696320, 50), (696320, 51)]

/-- First row of the table whose bound is satisfied; 52 if none. -/
def firstMatchingLevel : List (Nat × Nat) → Nat → Nat
  | [], _ => 52
  | (bound, lvl) :: rest, m => if m ≤ bound then lvl else firstMatchingLevel rest m

/-- h264_generate_sps (src/h264.c lines 134-228): the complete SPS NAL
byte sequence, transcribed statement by statement. -/
def h264_generate_sps (pic : H264PicParams) (bufsize : Nat) : BitWriter :=
  let profile_idc := h264_detect_profile pic
  let level_idc := h264_calc_level pic
  let width_pixels := (pic.picture_width_in_mbs_minus1 + 1) * 16
  let height_pixels := (pic.picture_height_in_mbs_minus1 + 1) * 16
  let need_crop := (width_pixels = 1920 ∧ height_pixels = 1088) ∨
                   (width_pixels = 1280 ∧ height_pixels = 736) ∨
                   (width_pixels = 640 ∧ height_pixels = 368)
  let crop_right := 0
  let crop_bottom := if need_crop then 4 else 0
  let bw := bw_init bufsize
  let bw := bw_put_bits bw 0x67 8
  let bw := bw_put_bits bw profile_idc 8
  let bw := bw_put_bits bw (if profile_idc = 66 then 1 else 0) 1
  let bw := bw_put_bits bw (if profile_idc ≤ 77 then 1 else 0) 1
  let bw := bw_put_bits bw 0 1
  let bw := bw_put_bits bw 0 1
  let bw := bw_put_bits bw 0 1
  let bw := bw_put_bits bw 0 1
  let bw := bw_put_bits bw 0 2
  let bw := bw_put_bits bw level_idc 8
  let bw := bw_put_ue bw 0
  let bw :=
    if 100 ≤ profile_idc then
      let bw := bw_put_ue bw pic.chroma_format_idc
      let bw := if pic.chroma_format_idc = 3 then bw_put_bits bw 0 1 else bw
      let bw := bw_put_ue bw pic.bit_depth_luma_minus8
      let bw := bw_put_ue bw pic.bit_depth_chroma_minus8
      let bw := bw_put_bits bw 0 1
      bw_put_bits bw 0 1
    else bw
  let bw := bw_put_ue bw pic.log2_max_frame_num_minus4
  let bw := bw_put_ue bw pic.pic_order_cnt_type
  let bw :=
    if pic.pic_order_cnt_type = 0 then
      bw_put_ue bw pic.log2_max_pic_order_cnt_lsb_minus4
    else if pic.pic_order_cnt_type = 1 then
      let bw := bw_put_bits bw pic.delta_pic_order_always_zero_flag 1
      let bw := bw_put_se bw 0
      let bw := bw_put_se bw 0
      bw_put_ue bw 0
    else bw
  let bw := bw_put_ue bw pic.num_ref_frames
  let bw := bw_put_bits bw pic.gaps_in_frame_num_value_allowed_flag 1
  let bw := bw_put_ue bw pic.picture_width_in_mbs_minus1
  let bw := bw_put_ue bw pic.picture_height_in_mbs_minus1
  let bw := bw_put_bits bw pic.frame_mbs_only_flag 1
  let bw :=
    if pic.frame_mbs_only_flag = 0 then
      bw_put_bits bw pic.mb_adaptive_frame_field_flag 1
    else bw
  let bw := bw_put_bits bw pic.direct_8x8_inference_flag 1
  let bw := bw_put_bits bw (if need_crop then 1 else 0) 1
  let bw :=
    if need_crop then
      let bw := bw_put_ue bw 0
      let bw := bw_put_ue bw crop_right
      let bw := bw_put_ue bw 0
      bw_put_ue bw crop_bottom
    else bw
  let bw := bw_put_bits bw 0 1
  bw_finish bw

/-- h264_generate_pps (src/h264.c lines 233-269). -/
def h264_generate_pps (pic : H264PicParams) (bufsize : Nat) : BitWriter :=
  let profile_idc := h264_detect_profile pic
  let bw := bw_init bufsize
  let bw := bw_put_bits bw 0x68 8
  let bw := bw_put_ue bw 0
  let bw := bw_put_ue bw 0
  let bw := bw_put_bits bw pic.entropy_coding_mode_flag 1
  let bw := bw_put_bits bw pic.pic_order_present_flag 1
  let bw := bw_put_ue bw 0
  let bw := bw_put_ue bw 0
  let bw := bw_put_ue bw 0
  let bw := bw_put_bits bw pic.weighted_pred_flag 1
  let bw := bw_put_bits bw pic.weighted_bipred_idc 2
  let bw := bw_put_se bw pic.pic_init_qp_minus26
  let bw := bw_put_se bw pic.pic_init_qs_minus26
  let bw := bw_put_se bw pic.chroma_qp_index_offset
  let bw := bw_put_bits bw pic.deblocking_filter_control_present_flag 1
  let bw := bw_put_bits bw pic.constrained_intra_pred_flag 1
  let bw := bw_put_bits bw pic.redundant_pic_cnt_present_flag 1
  let bw :=
    if 100 ≤ profile_idc ∧ pic.transform_8x8_mode_flag ≠ 0 then
      let bw := bw_put_bits bw 1 1
      let bw := bw_put_bits bw 0 1
      bw_put_se bw pic.second_chroma_qp_index_offset
    else bw
  bw_finish bw

/-! ### HEVC header synthesis (src/hevc.c) -/

/-- HEVC NAL unit type constants (src/hevc.c lines 18-23). -/
def HEVC_NAL_IDR_W_RADL : Nat := 19

def HEVC_NAL_IDR_N_LP : Nat := 20

def HEVC_NAL_CRA_NUT : Nat := 21

def HEVC_NAL_VPS : Nat := 32

def HEVC_NAL_SPS : Nat := 33

def HEVC_NAL_PPS : Nat := 34

/-- The fields of VAPictureParameterBufferHEVC that src/hevc.c reads,
bitfields flattened; signed offsets are integers. -/
structure HEVCPicParams where
  pic_width_in_luma_samples : Nat
  pic_height_in_luma_samples : Nat
  bit_depth_luma_minus8 : Nat
  bit_depth_chroma_minus8 : Nat
  sps_max_dec_pic_buffering_minus1 : Nat
  log2_max_pic_order_cnt_lsb_minus4 : Nat
  log2_min_luma_coding_block_size_minus3 : Nat
  log2_diff_max_min_luma_coding_block_size : Nat
  log2_min_transform_block_size_minus2 : Nat
  log2_diff_max_min_transform_block_size : Nat
  max_transform_hierarchy_depth_inter : Nat
  max_transform_hierarchy_depth_intra : Nat
  pcm_sample_bit_depth_luma_minus1 : Nat
  pcm_sample_bit_depth_chroma_minus1 : Nat
  log2_min_pcm_luma_coding_block_size_minus3 : Nat
  log2_diff_max_min_pcm_luma_coding_block_size : Nat
  num_extra_slice_header_bits : Nat
  num_ref_idx_l0_default_active_minus1 : Nat
  num_ref_idx_l1_default_active_minus1 : Nat
  init_qp_minus26 : Int
  diff_cu_qp_delta_depth : Nat
  pps_cb_qp_offset : Int
  pps_cr_qp_offset : Int
  num_tile_columns_minus1 : Nat
  num_tile_rows_minus1 : Nat
  pps_beta_offset_div2 : Int
  pps_tc_offset_div2 : Int
  log2_parallel_merge_level_minus2 : Nat
  chroma_format_idc : Nat
  separate_colour_plane_flag : Nat
  pcm_enabled_flag : Nat
  scaling_list_enabled_flag : Nat
  amp_enabled_flag : Nat
  strong_intra_smoothing_enabled_flag : Nat
  sign_data_hiding_enabled_flag : Nat
  constrained_intra_pred_flag : Nat
  transform_skip_enabled_flag : Nat
  cu_qp_delta_enabled_flag : Nat
  weighted_pred_flag : Nat
  weighted_bipred_flag : Nat
  transquant_bypass_enabled_flag : Nat
  tiles_enabled_flag : Nat
  entropy_coding_sync_enabled_flag : Nat
  loop_filter_across_tiles_enabled_flag : Nat
  pps_loop_filter_across_slices_enabled_flag : Nat
  pcm_loop_filter_disabled_flag : Nat
  sample_adaptive_offset_enabled_flag : Nat
  long_term_ref_pics_present_flag : Nat
  sps_temporal_mvp_enabled_flag : Nat
  dependent_slice_segments_enabled_flag : Nat
  output_flag_present_flag : Nat
  cabac_init_present_flag : Nat
  pps_slice_chroma_qp_offsets_present_flag : Nat
  deblocking_filter_override_enabled_flag : Nat
  pps_disable_deblocking_filter_flag : Nat
  lists_modification_present_flag : Nat
  slice_segment_header_extension_present_flag : Nat
deriving Repr, DecidableEq

/-- The if-chain of hevc_calc_level (src/hevc.c lines 298-317) over the
luma sample count, verbatim, including the duplicate rows. -/
def hevc_calc_level_go (pixels : Nat) : Nat :=
  if pixels ≤ 36864 then 30
  else if pixels ≤ 122880 then 60
  else if pixels ≤ 245760 then 63
  else if pixels ≤ 552960 then 90
  else if pixels ≤ 983040 then 93
  else if pixels ≤ 2228224 then 120
  else if pixels ≤ 2228224 then 123
  else if pixels ≤ 8912896 then 150
  else if pixels ≤ 8912896 then 153
  else if pixels ≤ 8912896 then 156
  else if pixels ≤ 35651584 then 180
  else if pixels ≤ 35651584 then 183
  else 186

/-- hevc_calc_level (src/hevc.c lines 298-317). -/
def hevc_calc_level (pic : HEVCPicParams) : Nat :=
  hevc_calc_level_go (pic.pic_width_in_luma_samples * pic.pic_height_in_luma_samples)

/-- hevc_calc_tier (src/hevc.c lines 323-333): High tier for 4K content
at level 5.0 or above. -/
def hevc_calc_tier (pic : HEVCPicParams) (level_idc : Nat) : Nat :=
  if 150 ≤ level_idc ∧
      8294400 ≤ pic.pic_width_in_luma_samples * pic.pic_height_in_luma_samples then 1
  else 0

/-- hevc_write_nal_header (src/hevc.c lines 214-219). -/
def hevc_write_nal_header (bw : BitWriter) (nal_type : Nat) : BitWriter :=
  let bw := bw_put_bits bw 0 1
  let bw := bw_put_bits bw nal_type 6
  let bw := bw_put_bits bw 0 6
  bw_put_bits bw 1 3

/-- hevc_write_vui (src/hevc.c lines 239-292): BT.2020/PQ colour for
Main10 (bit depth above 8), BT.709 otherwise. -/
def hevc_write_vui (bw : BitWriter) (pic : HEVCPicParams) : BitWriter :=
  let bw := bw_put_bits bw 0 1
  let bw := bw_put_bits bw 0 1
  let bw := bw_put_bits bw 1 1
  let bw := bw_put_bits bw 5 3
  let bw := bw_put_bits bw 0 1
  let bw := bw_put_bits bw 1 1
  let bw :=
    if 0 < pic.bit_depth_luma_minus8 then
      let bw := bw_put_bits bw 9 8
      let bw := bw_put_bits bw 16 8
      bw_put_bits bw 9 8
    else
      let bw := bw_put_bits bw 1 8
      let bw := bw_put_bits bw 1 8
      bw_put_bits bw 1 8
  let bw := bw_put_bits bw 0 1
  let bw := bw_put_bits bw 0 1
  let bw := bw_put_bits bw 0 1
  let bw := bw_put_bits bw 0 1
  let bw := bw_put_bits bw 0 1
  let bw := bw_put_bits bw 0 1
  bw_put_bits bw 0 1

/-- hevc_generate_vps (src/hevc.c lines 338-421). -/
def hevc_generate_vps (pic : HEVCPicParams) (bufsize : Nat) : BitWriter :=
  let level_idc := hevc_calc_level pic
  let tier := hevc_calc_tier pic level_idc
  let bw := bw_init bufsize
  let bw := hevc_write_nal_header bw HEVC_NAL_VPS
  let bw := bw_put_bits bw 0 4
  let bw := bw_put_bits bw 1 1
  let bw := bw_put_bits bw 1 1
  let bw := bw_put_bits bw 0 6
  let bw := bw_put_bits bw 0 3
  let bw := bw_put_bits bw 1 1
  let bw := bw_put_bits bw 0xffff 16
  let bw := bw_put_bits bw 0 2
  let bw := bw_put_bits bw tier 1
  let bw := bw_put_bits bw (if 0 < pic.bit_depth_luma_minus8 then 2 else 1) 5
  let compat : Nat :=
    if 0 < pic.bit_depth_luma_minus8 then 2 ^ 29 else 2 ^ 30 + 2 ^ 29
  let bw := bw_put_bits bw compat 32
  let bw := bw_put_bits bw 1 1
  let bw := bw_put_bits bw 0 1
  let bw := bw_put_bits bw 0 1
  let bw := bw_put_bits bw 1 1
  let bw := bw_put_bits bw 0 32
  let bw := bw_put_bits bw 0 12
  let bw := bw_put_bits bw level_idc 8
  let bw := bw_put_bits bw 1 1
  let bw := bw_put_ue bw pic.sps_max_dec_pic_buffering_minus1
  let bw := bw_put_ue bw 0
  let bw := bw_put_ue bw 0
  let bw := bw_put_bits bw 0 6
  let bw := bw_put_ue bw 0
  let bw := bw_put_bits bw 0 1
  let bw := bw_put_bits bw 0 1
  bw_finish bw

/-- hevc_generate_sps (src/hevc.c lines 426-565). -/
def hevc_generate_sps (pic : HEVCPicParams) (bufsize : Nat) : BitWriter :=
  let level_idc := hevc_calc_level pic
  let tier := hevc_calc_tier pic level_idc
  let profile_idc : Nat := if 0 < pic.bit_depth_luma_minus8 then 2 else 1
  let bw := bw_init bufsize
  let bw := hevc_write_nal_header bw HEVC_NAL_SPS
  let bw := bw_put_bits bw 0 4
  let bw := bw_put_bits bw 0 3
  let bw := bw_put_bits bw 1 1
  let bw := bw_put_bits bw 0 2
  let bw := bw_put_bits bw tier 1
  let bw := bw_put_bits bw profile_idc 5
  let compat : Nat := if profile_idc = 2 then 2 ^ 29 else 2 ^ 30 + 2 ^ 29
  let bw := bw_put_bits bw compat 32
  let bw := bw_put_bits bw 1 1
  let bw := bw_put_bits bw 0 1
  let bw := bw_put_bits bw 0 1
  let bw := bw_put_bits bw 1 1
  let bw := bw_put_bits bw 0 32
  let bw := bw_put_bits bw 0 12
  let bw := bw_put_bits bw level_idc 8
  let bw := bw_put_ue bw 0
  let bw := bw_put_ue bw pic.chroma_format_idc
  let bw :=
    if pic.chroma_format_idc = 3 then
      bw_put_bits bw pic.separate_colour_plane_flag 1
    else bw
  let bw := bw_put_ue bw pic.pic_width_in_luma_samples
  let bw := bw_put_ue bw pic.pic_height_in_luma_samples
  let ctb_size := 2 ^ (pic.log2_min_luma_coding_block_size_minus3 + 3 +
                       pic.log2_diff_max_min_luma_coding_block_size)
  let aligned_width := ((pic.pic_width_in_luma_samples + ctb_size - 1) / ctb_size) * ctb_size
  let aligned_height := ((pic.pic_height_in_luma_samples + ctb_size - 1) / ctb_size) * ctb_size
  let need_crop := aligned_width ≠ pic.pic_width_in_luma_samples ∨
                   aligned_height ≠ pic.pic_height_in_luma_samples
  let bw :=
    if need_crop then
      let bw := bw_put_bits bw 1 1
      let sub_width_c := if pic.chroma_format_idc = 1 ∨ pic.chroma_format_idc = 2 then 2 else 1
      let sub_height_c := if pic.chroma_format_idc = 1 then 2 else 1
      let bw := bw_put_ue bw 0
      let bw := bw_put_ue bw ((aligned_width - pic.pic_width_in_luma_samples) / sub_width_c)
      let bw := bw_put_ue bw 0
      bw_put_ue bw ((aligned_height - pic.pic_height_in_luma_samples) / sub_height_c)
    else
      bw_put_bits bw 0 1
  let bw := bw_put_ue bw pic.bit_depth_luma_minus8
  let bw := bw_put_ue bw pic.bit_depth_chroma_minus8
  let bw := bw_put_ue bw pic.log2_max_pic_order_cnt_lsb_minus4
  let bw := bw_put_bits bw 1 1
  let bw := bw_put_ue bw pic.sps_max_dec_pic_buffering_minus1
  let bw := bw_put_ue bw 0
  let bw := bw_put_ue bw 0
  let bw := bw_put_ue bw pic.log2_min_luma_coding_block_size_minus3
  let bw := bw_put_ue bw pic.log2_diff_max_min_luma_coding_block_size
  let bw := bw_put_ue bw pic.log2_min_transform_block_size_minus2
  let bw := bw_put_ue bw pic.log2_diff_max_min_transform_block_size
  let bw := bw_put_ue bw pic.max_transform_hierarchy_depth_inter
  let bw := bw_put_ue bw pic.max_transform_hierarchy_depth_intra
  let bw := bw_put_bits bw pic.scaling_list_enabled_flag 1
  let bw :=
    if pic.scaling_list_enabled_flag ≠ 0 then bw_put_bits bw 0 1 else bw
  let bw := bw_put_bits bw pic.amp_enabled_flag 1
  let bw := bw_put_bits bw pic.sample_adaptive_offset_enabled_flag 1
  let bw := bw_put_bits bw pic.pcm_enabled_flag 1
  let bw :=
    if pic.pcm_enabled_flag ≠ 0 then
      let bw := bw_put_bits bw pic.pcm_sample_bit_depth_luma_minus1 4
      let bw := bw_put_bits bw pic.pcm_sample_bit_depth_chroma_minus1 4
      let bw := bw_put_ue bw pic.log2_min_pcm_luma_coding_block_size_minus3
      let bw := bw_put_ue bw pic.log2_diff_max_min_pcm_luma_coding_block_size
      bw_put_bits bw pic.pcm_loop_filter_disabled_flag 1
    else bw
  let bw := bw_put_ue bw 0
  let bw := bw_put_bits bw pic.long_term_ref_pics_present_flag 1
  let bw :=
    if pic.long_term_ref_pics_present_flag ≠ 0 then bw_put_ue bw 0 else bw
  let bw := bw_put_bits bw pic.sps_temporal_mvp_enabled_flag 1
  let bw := bw_put_bits bw pic.strong_intra_smoothing_enabled_flag 1
  let bw := bw_put_bits bw 1 1
  let bw := hevc_write_vui bw pic
  let bw := bw_put_bits bw 0 1
  bw_finish bw

/-- hevc_generate_pps (src/hevc.c lines 570-667). -/
def hevc_generate_pps (pic : HEVCPicParams) (bufsize : Nat) : BitWriter :=
  let bw := bw_init bufsize
  let bw := hevc_write_nal_header bw HEVC_NAL_PPS
  let bw := bw_put_ue bw 0
  let bw := bw_put_ue bw 0
  let bw := bw_put_bits bw pic.dependent_slice_segments_enabled_flag 1
  let bw := bw_put_bits bw pic.output_flag_present_flag 1
  let bw := bw_put_bits bw pic.num_extra_slice_header_bits 3
  let bw := bw_put_bits bw pic.sign_data_hiding_enabled_flag 1
  let bw := bw_put_bits bw pic.cabac_init_present_flag 1
  let bw := bw_put_ue bw pic.num_ref_idx_l0_default_active_minus1
  let bw := bw_put_ue bw pic.num_ref_idx_l1_default_active_minus1
  let bw := bw_put_se bw pic.init_qp_minus26
  let bw := bw_put_bits bw pic.constrained_intra_pred_flag 1
  let bw := bw_put_bits bw pic.transform_skip_enabled_flag 1
  let bw := bw_put_bits bw pic.cu_qp_delta_enabled_flag 1
  let bw :=
    if pic.cu_qp_delta_enabled_flag ≠ 0 then
      bw_put_ue bw pic.diff_cu_qp_delta_depth
    else bw
  let bw := bw_put_se bw pic.pps_cb_qp_offset
  let bw := bw_put_se bw pic.pps_cr_qp_offset
  let bw := bw_put_bits bw pic.pps_slice_chroma_qp_offsets_present_flag 1
  let bw := bw_put_bits bw pic.weighted_pred_flag 1
  let bw := bw_put_bits bw pic.weighted_bipred_flag 1
  let bw := bw_put_bits bw pic.transquant_bypass_enabled_flag 1
  let bw := bw_put_bits bw pic.tiles_enabled_flag 1
  let bw := bw_put_bits bw pic.entropy_coding_sync_enabled_flag 1
  let bw :=
    if pic.tiles_enabled_flag ≠ 0 then
      let bw := bw_put_ue bw pic.num_tile_columns_minus1
      let bw := bw_put_ue bw pic.num_tile_rows_minus1
      let bw := bw_put_bits bw 1 1
      bw_put_bits bw pic.loop_filter_across_tiles_enabled_flag 1
    else bw
  let bw := bw_put_bits bw pic.pps_loop_filter_across_slices_enabled_flag 1
  let deblock := pic.deblocking_filter_override_enabled_flag ≠ 0 ∨
                 pic.pps_disable_deblocking_filter_flag ≠ 0
  let bw := bw_put_bits bw (if deblock then 1 else 0) 1
  let bw :=
    if deblock then
      let bw := bw_put_bits bw pic.deblocking_filter_override_enabled_flag 1
      let bw := bw_put_bits bw pic.pps_disable_deblocking_filter_flag 1
      if pic.pps_disable_deblocking_filter_flag = 0 then
        let bw := bw_put_se bw pic.pps_beta_offset_div2
        bw_put_se bw pic.pps_tc_offset_div2
      else bw
    else bw
  let bw := bw_put_bits bw 0 1
  let bw := bw_put_bits bw pic.lists_modification_present_flag 1
  let bw := bw_put_ue bw pic.log2_parallel_merge_level_minus2
  let bw := bw_put_bits bw pic.slice_segment_header_extension_present_flag 1
  let bw := bw_put_bits bw 0 1
  bw_finish bw

/-! ### Session state and codec handlers -/

/-- Three-byte Annex-B start code (NAL_START_CODE in src/h264.c and src/hevc.c). -/
def NAL_START_CODE : List Nat := [0, 0, 1]

/-- bitstream_append (src/v4l2-backend.c lines 531-542): the reallocating
growable-buffer append reduces to list append. -/
def bitstream_append (bb : List Nat) (d : List Nat) : List Nat := bb ++ d

/-- Modelled from the spec: the size of the fixed per-codec header arrays
(ctx->h264.last_sps, ctx->hevc.last_vps and friends).  The struct that
declares them is missing from src/ (the checked-in vabackend.h predates
the codec sub-states), so the capacity is taken from the spec's words:
header NALs go into fixed small buffers "allocated with headroom"; 256
bytes is comfortably above every generated header. -/
def HEADER_BUF_SIZE : Nat := 256

/-- Per-session H.264 header cache (ctx->h264): latest SPS/PPS bytes
(sizes are the list lengths) and the sps_pps_sent flag. -/
structure H264State where
  last_sps : List Nat
  last_pps : List Nat
  sps_pps_sent : Bool
deriving Repr, DecidableEq

/-- Per-session HEVC header cache (ctx->hevc): latest VPS/SPS/PPS bytes
and the params_sent flag. -/
structure HEVCState where
  last_vps : List Nat
  last_sps : List Nat
  last_pps : List Nat
  params_sent : Bool
deriving Repr, DecidableEq

/-- The process-global HEVC cache key (src/hevc.c lines 694-697: the
static variables hevc_last_width, hevc_last_height, hevc_last_bit_depth,
shared by every session in the process). -/
structure HevcGlobals where
  hevc_last_width : Nat
  hevc_last_height : Nat
  hevc_last_bit_depth : Nat
deriving Repr, DecidableEq

/-- One VASliceParameterBuffer element as the slice handlers read it. -/
structure SliceParam where
  slice_data_offset : Nat
  slice_data_size : Nat
deriving Repr, DecidableEq

/-- V4L2 memory-mapped buffer descriptor (vabackend.h V4L2MmapBuffer):
mapped length and whether the kernel currently owns the buffer. -/
structure MBuf where
  length : Nat
  queued : Bool
deriving Repr, DecidableEq

/-- The codec bound to a session (the V4L2Codec the context points to). -/
inductive CodecKind
  | h264
  | hevc
  | vp8
  | vp9
deriving Repr, DecidableEq

/-- The fields of V4L2Context (vabackend.h) that the modelled operations
touch.  last_slice_params mirrors the latched pointer to the current
slice-parameter array (none when NULL); last_slice_count is latched
separately from the buffer's num_elements, exactly as in the C struct. -/
structure V4L2Ctx where
  codec : CodecKind
  bitstream : List Nat
  last_slice_params : Option (List SliceParam)
  last_slice_count : Nat
  h264 : H264State
  hevc : HEVCState
  output_buffers : List MBuf
  streaming_output : Bool
  streaming_capture : Bool
  capture_buffers : List MBuf
  render_target : Option Nat
deriving Repr, DecidableEq

/-- h264_handle_picture_params (src/h264.c lines 274-288): regenerate and
cache SPS and PPS on every submission; the sps_pps_sent flag is not
touched. -/
def h264_handle_picture_params (ctx : V4L2Ctx) (pic : H264PicParams) : V4L2Ctx :=
  { ctx with
    h264 := { ctx.h264 with
      last_sps := (h264_generate_sps pic HEADER_BUF_SIZE).data,
      last_pps := (h264_generate_pps pic HEADER_BUF_SIZE).data } }

/-- One iteration of the slice loop in h264_handle_slice_data
(src/h264.c lines 302-331): read the NAL type from the slice's first
byte, prepend start-code+SPS and start-code+PPS before an IDR slice when
they have not been sent, then append start-code+slice bytes. -/
def h264_slice_step (bufData : List Nat) (ctx : V4L2Ctx) (sp : SliceParam) : V4L2Ctx :=
  let nal_type := bufData.getD sp.slice_data_offset 0 % 32
  let ctx :=
    if nal_type = 5 ∧ ctx.h264.sps_pps_sent = false then
      let ctx :=
        if 0 < ctx.h264.last_sps.length then
          { ctx with bitstream :=
              bitstream_append (bitstream_append ctx.bitstream NAL_START_CODE) ctx.h264.last_sps }
        else ctx
      let ctx :=
        if 0 < ctx.h264.last_pps.length then
          { ctx with bitstream :=
              bitstream_append (bitstream_append ctx.bitstream NAL_START_CODE) ctx.h264.last_pps }
        else ctx
      { ctx with h264 := { ctx.h264 with sps_pps_sent := true } }
    else ctx
  { ctx with
    bitstream :=
      bitstream_append (bitstream_append ctx.bitstream NAL_START_CODE)
        ((bufData.drop sp.slice_data_offset).take sp.slice_data_size) }

/-- h264_handle_slice_data (src/h264.c lines 293-332): nothing without
latched slice parameters, else the loop over the first last_slice_count
entries. -/
def h264_handle_slice_data (ctx : V4L2Ctx) (bufData : List Nat) : V4L2Ctx :=
  match ctx.last_slice_params with
  | none => ctx
  | some sps => (sps.take ctx.last_slice_count).foldl (h264_slice_step bufData) ctx

/-- hevc_prepend_parameter_sets (src/hevc.c lines 673-692). -/
def hevc_prepend_parameter_sets (ctx : V4L2Ctx) : V4L2Ctx :=
  let ctx :=
    if 0 < ctx.hevc.last_vps.length then
      { ctx with bitstream :=
          bitstream_append (bitstream_append ctx.bitstream NAL_START_CODE) ctx.hevc.last_vps }
    else ctx
  let ctx :=
    if 0 < ctx.hevc.last_sps.length then
      { ctx with bitstream :=
          bitstream_append (bitstream_append ctx.bitstream NAL_START_CODE) ctx.hevc.last_sps }
    else ctx
  if 0 < ctx.hevc.last_pps.length then
    { ctx with bitstream :=
        bitstream_append (bitstream_append ctx.bitstream NAL_START_CODE) ctx.hevc.last_pps }
  else ctx

/-- The params_changed condition of hevc_handle_picture_params
(src/hevc.c lines 708-711), over the process-global cache key. -/
def hevc_params_changed (g : HevcGlobals) (ctx : V4L2Ctx) (pic : HEVCPicParams) : Bool :=
  decide (pic.pic_width_in_luma_samples ≠ g.hevc_last_width ∨
          pic.pic_height_in_luma_samples ≠ g.hevc_last_height ∨
          pic.bit_depth_luma_minus8 ≠ g.hevc_last_bit_depth ∨
          ctx.hevc.last_vps.length = 0)

/-- hevc_handle_picture_params (src/hevc.c lines 703-736): when the
(global) cache key changed or the cache is empty, regenerate VPS/SPS/PPS
and update the global key; the params_sent flag is not touched. -/
def hevc_handle_picture_params (g : HevcGlobals) (ctx : V4L2Ctx) (pic : HEVCPicParams) :
    HevcGlobals × V4L2Ctx :=
  if hevc_params_changed g ctx pic then
    ({ hevc_last_width := pic.pic_width_in_luma_samples,
       hevc_last_height := pic.pic_height_in_luma_samples,
       hevc_last_bit_depth := pic.bit_depth_luma_minus8 },
     { ctx with
       hevc := { ctx.hevc with
         last_vps := (hevc_generate_vps pic HEADER_BUF_SIZE).data,
         last_sps := (hevc_generate_sps pic HEADER_BUF_SIZE).data,
         last_pps := (hevc_generate_pps pic HEADER_BUF_SIZE).data } })
  else (g, ctx)

/-- One iteration of the slice loop in hevc_handle_slice_data
(src/hevc.c lines 759-781): skip in-band VPS/SPS/PPS NALs, prepend the
synthesised parameter sets before IDR/CRA when not yet sent, then append
start-code+slice bytes. -/
def hevc_slice_step (bufData : List Nat) (ctx : V4L2Ctx) (sp : SliceParam) : V4L2Ctx :=
  let nal_type := bufData.getD sp.slice_data_offset 0 / 2 % 64
  if nal_type = HEVC_NAL_VPS ∨ nal_type = HEVC_NAL_SPS ∨ nal_type = HEVC_NAL_PPS then ctx
  else
    let ctx :=
      if (HEVC_NAL_IDR_W_RADL ≤ nal_type ∧ nal_type ≤ HEVC_NAL_CRA_NUT) ∧
          ctx.hevc.params_sent = false then
        let ctx := hevc_prepend_parameter_sets ctx
        { ctx with hevc := { ctx.hevc with params_sent := true } }
      else ctx
    { ctx with
      bitstream :=
        bitstream_append (bitstream_append ctx.bitstream NAL_START_CODE)
          ((bufData.drop sp.slice_data_offset).take sp.slice_data_size) }

/-- hevc_handle_slice_data (src/hevc.c lines 741-782). -/
def hevc_handle_slice_data (ctx : V4L2Ctx) (bufData : List Nat) : V4L2Ctx :=
  match ctx.last_slice_params with
  | none => ctx
  | some sps => (sps.take ctx.last_slice_count).foldl (hevc_slice_step bufData) ctx

/-- A fresh session context as vaCreateContext leaves it: calloc zeroes
everything, so both codec caches are empty and no slice parameters are
latched. -/
def freshCtx (c : CodecKind) : V4L2Ctx :=
  { codec := c, bitstream := [], last_slice_params := none, last_slice_count := 0,
    h264 := ⟨[], [], false⟩, hevc := ⟨[], [], [], false⟩,
    output_buffers := [], streaming_output := false, streaming_capture := false,
    capture_buffers := [], render_target := none }

/-- All-zero HEVC picture parameters, the base for concrete test vectors. -/
def hevcPicZero : HEVCPicParams :=
  { pic_width_in_luma_samples := 0, pic_height_in_luma_samples := 0,
    bit_depth_luma_minus8 := 0, bit_depth_chroma_minus8 := 0,
    sps_max_dec_pic_buffering_minus1 := 0, log2_max_pic_order_cnt_lsb_minus4 := 0,
    log2_min_luma_coding_block_size_minus3 := 0, log2_diff_max_min_luma_coding_block_size := 0,
    log2_min_transform_block_size_minus2 := 0, log2_diff_max_min_transform_block_size := 0,
    max_transform_hierarchy_depth_inter := 0, max_transform_hierarchy_depth_intra := 0,
    pcm_sample_bit_depth_luma_minus1 := 0, pcm_sample_bit_depth_chroma_minus1 := 0,
    log2_min_pcm_luma_coding_block_size_minus3 := 0,
    log2_diff_max_min_pcm_luma_coding_block_size := 0,
    num_extra_slice_header_bits := 0, num_ref_idx_l0_default_active_minus1 := 0,
    num_ref_idx_l1_default_active_minus1 := 0, init_qp_minus26 := 0,
    diff_cu_qp_delta_depth := 0, pps_cb_qp_offset := 0, pps_cr_qp_offset := 0,
    num_tile_columns_minus1 := 0, num_tile_rows_minus1 := 0,
    pps_beta_offset_div2 := 0, pps_tc_offset_div2 := 0,
    log2_parallel_merge_level_minus2 := 0, chroma_format_idc := 0,
    separate_colour_plane_flag := 0, pcm_enabled_flag := 0,
    scaling_list_enabled_flag := 0, amp_enabled_flag := 0,
    strong_intra_smoothing_enabled_flag := 0, sign_data_hiding_enabled_flag := 0,
    constrained_intra_pred_flag := 0, transform_skip_enabled_flag := 0,
    cu_qp_delta_enabled_flag := 0, weighted_pred_flag := 0,
    weighted_bipred_flag := 0, transquant_bypass_enabled_flag := 0,
    tiles_enabled_flag := 0, entropy_coding_sync_enabled_flag := 0,
    loop_filter_across_tiles_enabled_flag := 0,
    pps_loop_filter_across_slices_enabled_flag := 0, pcm_loop_filter_disabled_flag := 0,
    sample_adaptive_offset_enabled_flag := 0, long_term_ref_pics_present_flag := 0,
    sps_temporal_mvp_enabled_flag := 0, dependent_slice_segments_enabled_flag := 0,
    output_flag_present_flag := 0, cabac_init_present_flag := 0,
    pps_slice_chroma_qp_offsets_present_flag := 0,
    deblocking_filter_override_enabled_flag := 0,
    pps_disable_deblocking_filter_flag := 0, lists_modification_present_flag := 0,
    slice_segment_header_extension_present_flag := 0 }

/-- 4K Main-10 HDR picture parameters (3840x2160, 10-bit, 4:2:0). -/
def hevcPic4K : HEVCPicParams :=
  { hevcPicZero with
    pic_width_in_luma_samples := 3840, pic_height_in_luma_samples := 2160,
    bit_depth_luma_minus8 := 2, bit_depth_chroma_minus8 := 2,
    sps_max_dec_pic_buffering_minus1 := 5, log2_max_pic_order_cnt_lsb_minus4 := 4,
    log2_min_luma_coding_block_size_minus3 := 0,
    log2_diff_max_min_luma_coding_block_size := 2,
    log2_diff_max_min_transform_block_size := 3,
    max_transform_hierarchy_depth_inter := 2, max_transform_hierarchy_depth_intra := 2,
    chroma_format_idc := 1, amp_enabled_flag := 1,
    strong_intra_smoothing_enabled_flag := 1, sample_adaptive_offset_enabled_flag := 1,
    sps_temporal_mvp_enabled_flag := 1 }

/-- The 39 VUI bits hevc_write_vui produces for an HDR (bit depth above
8) picture: aspect 0, overscan 0, video-signal-type 1, video_format 5,
full_range 0, colour_description 1, then the three colour bytes
(primaries 9 = BT.2020, transfer 16 = PQ, matrix 9 = BT.2020-NCL) and
seven trailing zero flags. -/
def hdrVuiPattern : List Bool :=
  [false, false, true, true, false, true, false, true] ++
  natBits 9 8 ++ natBits 16 8 ++ natBits 9 8 ++ List.replicate 7 false

/-- Concrete session state for the C2 witness: cached one-byte SPS and
PPS, flag clear, two latched slices at offsets 0 and 2 of the buffer. -/
def c2Ctx : V4L2Ctx :=
  { freshCtx CodecKind.h264 with
    bitstream := [9],
    last_slice_params := some [⟨0, 2⟩, ⟨2, 2⟩],
    last_slice_count := 2,
    h264 := ⟨[103], [104], false⟩ }

/-- Slice-data buffer for the C2 witness: an IDR slice (first byte 0x65,
NAL type 5) followed by a non-IDR slice (first byte 0x41, NAL type 1). -/
def c2Buf : List Nat := [101, 170, 65, 187]

/-- Globals and session state for the C3 evaluation: the cache key
matches a previously submitted 64x64 8-bit stream whose headers were
already emitted (params_sent is true) and cached. -/
def c3Globals : HevcGlobals := ⟨64, 64, 0⟩

def c3Ctx : V4L2Ctx :=
  { freshCtx CodecKind.hevc with hevc := ⟨[1], [2], [3], true⟩ }

def c3CtxH : V4L2Ctx :=
  { freshCtx CodecKind.h264 with h264 := ⟨[103], [104], true⟩ }

/-- 128x64 8-bit picture parameters: a cache-key change against c3Globals. -/
def hevcPicB : HEVCPicParams :=
  { hevcPicZero with pic_width_in_luma_samples := 128, pic_height_in_luma_samples := 64 }

/-- 64x64 8-bit picture parameters. -/
def hevcPicA : HEVCPicParams :=
  { hevcPicZero with pic_width_in_luma_samples := 64, pic_height_in_luma_samples := 64 }

/-- All-zero H.264 picture parameters for the C3 evaluation. -/
def h264PicZero : H264PicParams :=
  { picture_width_in_mbs_minus1 := 0, picture_height_in_mbs_minus1 := 0,
    num_ref_frames := 0, bit_depth_luma_minus8 := 0, bit_depth_chroma_minus8 := 0,
    chroma_format_idc := 0, transform_8x8_mode_flag := 0, entropy_coding_mode_flag := 0,
    pic_order_present_flag := 0, weighted_pred_flag := 0, weighted_bipred_idc := 0,
    pic_init_qp_minus26 := 0, pic_init_qs_minus26 := 0, chroma_qp_index_offset := 0,
    second_chroma_qp_index_offset := 0, deblocking_filter_control_present_flag := 0,
    constrained_intra_pred_flag := 0, redundant_pic_cnt_present_flag := 0,
    log2_max_frame_num_minus4 := 0, pic_order_cnt_type := 0,
    log2_max_pic_order_cnt_lsb_minus4 := 0, delta_pic_order_always_zero_flag := 0,
    gaps_in_frame_num_value_allowed_flag := 0, frame_mbs_only_flag := 1,
    mb_adaptive_frame_field_flag := 0, direct_8x8_inference_flag := 1 }

/-! ### Driver-level state and operations (src/vabackend.c, src/v4l2-backend.c) -/

/-- vp8_handle_slice_data and vp9_handle_slice_data (vp8/vp9 codec
files): raw frame bytes are appended without start codes or headers. -/
def raw_handle_slice_data (ctx : V4L2Ctx) (bufData : List Nat) : V4L2Ctx :=
  match ctx.last_slice_params with
  | none => ctx
  | some sps =>
    (sps.take ctx.last_slice_count).foldl
      (fun c sp =>
        { c with
          bitstream :=
            bitstream_append c.bitstream
              ((bufData.drop sp.slice_data_offset).take sp.slice_data_size) }) ctx

/-- The VA status codes the modelled entry points return. -/
inductive VAStatus
  | success
  | errorInvalidConfig
  | errorInvalidContext
  | errorInvalidSurface
  | errorInvalidBuffer
  | errorOperationFailed
deriving Repr, DecidableEq

/-- V4L2Surface fields the modelled operations touch: capture binding
(-1 when none, as in the C int field), decoded flag, owning context id
(none models a NULL context pointer). -/
structure V4L2Surface where
  width : Nat
  height : Nat
  capture_idx : Int
  decoded : Bool
  context : Option Nat
deriving Repr, DecidableEq

/-- The view the modelled dispatcher takes of a VA buffer's untyped data
pointer: the C code casts buf->data according to buf->type and the
session codec, which a sum type models. -/
inductive VABufData
  | sliceBytes (bytes : List Nat)
  | sliceParamList (ps : List SliceParam)
  | picParamsH264 (p : H264PicParams)
  | picParamsHEVC (p : HEVCPicParams)
  | untyped
deriving Repr, DecidableEq

/-- VABufferType values the dispatcher distinguishes. -/
inductive VABufType
  | sliceData
  | sliceParams
  | picParams
  | iqMatrix
  | image
  | other
deriving Repr, DecidableEq

/-- V4L2Buffer (vabackend.h): type tag, data, element count, in-use flag. -/
structure VABuf where
  btype : VABufType
  data : VABufData
  num_elements : Nat
  in_use : Bool
deriving Repr, DecidableEq

/-- Object-table bounds (vabackend.h). -/
def MAX_PROFILES : Nat := 16

def MAX_SURFACES : Nat := 32

def MAX_BUFFERS : Nat := 1024

def MAX_OUTPUT_BUFFERS : Nat := 8

/-- The driver state: the four object tables (entries none when the slot
is free) plus the process-global HEVC cache key. -/
structure V4L2DriverState where
  configs : List (Option CodecKind)
  contexts : List (Option V4L2Ctx)
  surfaces : List (Option V4L2Surface)
  buffers : List (Option VABuf)
  hevcGlobals : HevcGlobals
deriving Repr, DecidableEq

/-- Common lookup shape of get_config/get_context/get_surface/get_buffer
(src/vabackend.c lines 157-187): index arithmetic on the id, bounds
check, then the table entry (NULL when free). -/
def table_get {α : Type} (l : List (Option α)) (idx : Int) (bound : Nat) : Option α :=
  if 0 ≤ idx ∧ idx < (bound : Int) then l.getD idx.toNat none else none

def CONFIG_INDEX (id : Nat) : Int := (id : Int) - 1

def CONTEXT_INDEX (id : Nat) : Int := (id : Int) - 1 - 0x1000

def SURFACE_INDEX (id : Nat) : Int := (id : Int) - 1 - 0x2000

def BUFFER_INDEX (id : Nat) : Int := (id : Int) - 1 - 0x3000

def get_config (drv : V4L2DriverState) (id : Nat) : Option CodecKind :=
  table_get drv.configs (CONFIG_INDEX id) MAX_PROFILES

def get_context (drv : V4L2DriverState) (id : Nat) : Option V4L2Ctx :=
  table_get drv.contexts (CONTEXT_INDEX id) MAX_PROFILES

def get_surface (drv : V4L2DriverState) (id : Nat) : Option V4L2Surface :=
  table_get drv.surfaces (SURFACE_INDEX id) MAX_SURFACES

def get_buffer (drv : V4L2DriverState) (id : Nat) : Option VABuf :=
  table_get drv.buffers (BUFFER_INDEX id) MAX_BUFFERS

/-- Store back an updated context (the C code mutates through the
pointer; the model writes the table slot). -/
def set_context (drv : V4L2DriverState) (id : Nat) (ctx : V4L2Ctx) : V4L2DriverState :=
  { drv with contexts := drv.contexts.set (CONTEXT_INDEX id).toNat (some ctx) }

/-- Store back an updated surface. -/
def set_surface (drv : V4L2DriverState) (id : Nat) (s : V4L2Surface) : V4L2DriverState :=
  { drv with surfaces := drv.surfaces.set (SURFACE_INDEX id).toNat (some s) }

/-- v4l2_DestroyBuffer (src/vabackend.c lines 735-761): out-of-range or
free slots return success untouched; an image buffer still in use defers
the free and returns success; otherwise the slot is freed. -/
def v4l2_DestroyBuffer (drv : V4L2DriverState) (buf_id : Nat) : V4L2DriverState × VAStatus :=
  let idx := BUFFER_INDEX buf_id
  if 0 ≤ idx ∧ idx < (MAX_BUFFERS : Int) then
    match drv.buffers.getD idx.toNat none with
    | none => (drv, VAStatus.success)
    | some b =>
      if b.btype = VABufType.image ∧ b.in_use then (drv, VAStatus.success)
      else ({ drv with buffers := drv.buffers.set idx.toNat none }, VAStatus.success)
  else (drv, VAStatus.success)

/-- The buffer-type dispatch of v4l2_RenderPicture (src/vabackend.c lines
822-846), threading the process-global HEVC cache key through the HEVC
picture-parameter handler.  A data view that does not match the buffer
type models the C cast of memory that the driver never writes through
(no handler runs on such inputs in practice). -/
def render_process_buffer (g : HevcGlobals) (ctx : V4L2Ctx) (b : VABuf) :
    HevcGlobals × V4L2Ctx :=
  match b.btype with
  | VABufType.sliceData =>
    match b.data with
    | VABufData.sliceBytes bytes =>
      (g, match ctx.codec with
          | CodecKind.h264 => h264_handle_slice_data ctx bytes
          | CodecKind.hevc => hevc_handle_slice_data ctx bytes
          | CodecKind.vp8 => raw_handle_slice_data ctx bytes
          | CodecKind.vp9 => raw_handle_slice_data ctx bytes)
    | _ => (g, ctx)
  | VABufType.sliceParams =>
    match b.data with
    | VABufData.sliceParamList ps =>
      (g, { ctx with last_slice_params := some ps, last_slice_count := b.num_elements })
    | _ => (g, ctx)
  | VABufType.picParams =>
    match ctx.codec, b.data with
    | CodecKind.h264, VABufData.picParamsH264 p => (g, h264_handle_picture_params ctx p)
    | CodecKind.hevc, VABufData.picParamsHEVC p => hevc_handle_picture_params g ctx p
    | _, _ => (g, ctx)
  | VABufType.iqMatrix => (g, ctx)
  | VABufType.image => (g, ctx)
  | VABufType.other => (g, ctx)

/-- v4l2_RenderPicture (src/vabackend.c lines 801-851): invalid context
id fails with the invalid-context code; unknown buffer ids in the list
are skipped with a log; each known buffer is dispatched in order. -/
def v4l2_RenderPicture (drv : V4L2DriverState) (context_id : Nat) (buf_ids : List Nat) :
    V4L2DriverState × VAStatus :=
  match get_context drv context_id with
  | none => (drv, VAStatus.errorInvalidContext)
  | some ctx0 =>
    let gc := buf_ids.foldl
      (fun (acc : HevcGlobals × V4L2Ctx) bid =>
        match get_buffer drv bid with
        | none => acc
        | some b => render_process_buffer acc.1 acc.2 b)
      (drv.hevcGlobals, ctx0)
    ({ set_context drv context_id gc.2 with hevcGlobals := gc.1 }, VAStatus.success)

/-- Kernel-visible actions the modelled queue operations perform, in
order.  Only actions that move data or buffers to or from the kernel are
recorded. -/
inductive KAction
  | dqbufOutput (idx : Nat)
  | copyBitstream (idx : Nat) (size : Nat)
  | qbufOutput (idx : Nat)
  | streamonOutput
  | setupCapture
  | streamonCapture
  | dqbufCapture (idx : Nat)
deriving Repr, DecidableEq

/-- Outcomes the kernel hands back to the modelled ioctls.  The
non-deterministic kernel is an explicit oracle: reclaim holds the OUTPUT
buffer indices the non-blocking drain dequeues before EAGAIN; wait holds
one entry per iteration of the bounded blocking wait (none = EAGAIN);
qbufOk/streamonOk gate VIDIOC_QBUF/VIDIOC_STREAMON on the OUTPUT queue;
captureSetupOk and captureBufs summarise v4l2_setup_capture_queue (its
format negotiation and per-buffer REQBUFS/QUERYBUF/QBUF calls all sit
below this ioctl boundary and no claim depends on them);
captureStreamonOk gates CAPTURE stream-on. -/
structure KernelOracle where
  reclaim : List Nat
  wait : List (Option Nat)
  qbufOk : Bool
  streamonOk : Bool
  captureSetupOk : Bool
  captureBufs : List MBuf
  captureStreamonOk : Bool
deriving Repr, DecidableEq

/-- Mark an output/capture buffer descriptor unqueued (a no-op when the
index is outside the descriptor array). -/
def mark_unqueued (bufs : List MBuf) (idx : Nat) : List MBuf :=
  match bufs.get? idx with
  | none => bufs
  | some b => bufs.set idx { b with queued := false }

/-- v4l2_reclaim_output_buffers (src/v4l2-backend.c lines 306-334):
nothing when OUTPUT streaming is off; else every dequeued index below
MAX_OUTPUT_BUFFERS is marked unqueued. -/
def v4l2_reclaim_output_buffers (ctx : V4L2Ctx) (events : List Nat) :
    V4L2Ctx × List KAction :=
  if ctx.streaming_output then
    (events.foldl
      (fun c idx =>
        if idx < MAX_OUTPUT_BUFFERS then
          { c with output_buffers := mark_unqueued c.output_buffers idx }
        else c) ctx,
     events.map KAction.dqbufOutput)
  else (ctx, [])

/-- The selection scan of v4l2_queue_bitstream (lines 345-353): first
descriptor not currently queued. -/
def find_free_output (bufs : List MBuf) : Option Nat :=
  (List.range bufs.length).find? (fun i => (bufs.get? i).map MBuf.queued = some false)

/-- The bounded wait of v4l2_queue_bitstream (lines 360-387): up to 100
iterations; a successful dequeue below MAX_OUTPUT_BUFFERS is marked
unqueued and selected, EAGAIN sleeps and retries; an exhausted oracle
behaves as persistent EAGAIN. -/
def wait_for_output : Nat → V4L2Ctx → List (Option Nat) → V4L2Ctx × Option Nat × List KAction
  | 0, ctx, _ => (ctx, none, [])
  | _ + 1, ctx, [] => (ctx, none, [])
  | fuel + 1, ctx, ev :: rest =>
    match ev with
    | some idx =>
      if idx < MAX_OUTPUT_BUFFERS then
        ({ ctx with output_buffers := mark_unqueued ctx.output_buffers idx },
         some idx, [KAction.dqbufOutput idx])
      else
        let r := wait_for_output fuel ctx rest
        (r.1, r.2.1, KAction.dqbufOutput idx :: r.2.2)
    | none =>
      wait_for_output fuel ctx rest

/-- v4l2_queue_bitstream (src/v4l2-backend.c lines 339-476): reclaim,
select a free OUTPUT buffer (waiting boundedly when none is free and
streaming), bound-check the bitstream against the mapped buffer length
before any copy or enqueue, copy, enqueue, and on the first enqueue
start OUTPUT streaming, set up the CAPTURE queue after the source-change
wait, and start CAPTURE streaming.  Returns the updated session, the C
return value, and the kernel actions performed. -/
def v4l2_queue_bitstream (ctx : V4L2Ctx) (size : Nat) (k : KernelOracle) :
    V4L2Ctx × Int × List KAction :=
  let r0 := v4l2_reclaim_output_buffers ctx k.reclaim
  let ctx0 := r0.1
  let tr0 := r0.2
  let sel0 := find_free_output ctx0.output_buffers
  let r1 :=
    if sel0 = none ∧ ctx0.streaming_output then wait_for_output 100 ctx0 k.wait
    else (ctx0, sel0, [])
  let ctx1 := r1.1
  let tr1 := tr0 ++ r1.2.2
  match r1.2.1 with
  | none => (ctx1, -1, tr1)
  | some i =>
    match ctx1.output_buffers.get? i with
    | none => (ctx1, -1, tr1)
    | some ob =>
      if (ob.length : Int) < (size : Int) then (ctx1, -1, tr1)
      else
        let tr2 := tr1 ++ [KAction.copyBitstream i size]
        if k.qbufOk = false then (ctx1, -1, tr2)
        else
          let ctx2 := { ctx1 with output_buffers := ctx1.output_buffers.set i { ob with queued := true } }
          let tr3 := tr2 ++ [KAction.qbufOutput i]
          if ctx2.streaming_output then (ctx2, 0, tr3)
          else if k.streamonOk = false then (ctx2, -1, tr3)
          else
            let ctx3 := { ctx2 with streaming_output := true }
            let tr4 := tr3 ++ [KAction.streamonOutput]
            if k.captureSetupOk = false then (ctx3, -1, tr4)
            else
              let ctx4 := { ctx3 with capture_buffers := k.captureBufs }
              let tr5 := tr4 ++ [KAction.setupCapture]
              if k.captureStreamonOk = false then (ctx4, -1, tr5)
              else
                ({ ctx4 with streaming_capture := true }, 0, tr5 ++ [KAction.streamonCapture])

/-- v4l2_dequeue_frame (src/v4l2-backend.c lines 481-505): a successful
CAPTURE dequeue binds the buffer index to the surface, marks it decoded
and marks the descriptor unqueued; EAGAIN (none) returns -1. -/
def v4l2_dequeue_frame (ctx : V4L2Ctx) (s : V4L2Surface) (ev : Option Nat) :
    V4L2Ctx × V4L2Surface × Int × List KAction :=
  match ev with
  | none => (ctx, s, -1, [])
  | some idx =>
    ({ ctx with capture_buffers := mark_unqueued ctx.capture_buffers idx },
     { s with capture_idx := (idx : Int), decoded := true }, 0,
     [KAction.dqbufCapture idx])

/-- v4l2_EndPicture (src/vabackend.c lines 853-888): invalid context id
fails; prepare_bitstream is a no-op for every codec; a non-empty
assembly buffer is queued and a failure there returns the
operation-failed code; finally one non-blocking dequeue is attempted for
the render target. -/
def v4l2_EndPicture (drv : V4L2DriverState) (context_id : Nat) (k : KernelOracle)
    (dequeueEv : Option Nat) : V4L2DriverState × VAStatus × List KAction :=
  match get_context drv context_id with
  | none => (drv, VAStatus.errorInvalidContext, [])
  | some ctx =>
    let q :=
      if 0 < ctx.bitstream.length then
        let r := v4l2_queue_bitstream ctx ctx.bitstream.length k
        (r.1, some r.2.1, r.2.2)
      else (ctx, none, [])
    match q.2.1 with
    | some ret =>
      if ret < 0 then (set_context drv context_id q.1, VAStatus.errorOperationFailed, q.2.2)
      else end_picture_dequeue drv context_id q.1 q.2.2 dequeueEv
    | none => end_picture_dequeue drv context_id q.1 q.2.2 dequeueEv
where
  /-- The trailing dequeue attempt of v4l2_EndPicture. -/
  end_picture_dequeue (drv : V4L2DriverState) (context_id : Nat) (ctx : V4L2Ctx)
      (tr : List KAction) (dequeueEv : Option Nat) : V4L2DriverState × VAStatus × List KAction :=
    match ctx.render_target with
    | none => (set_context drv context_id ctx, VAStatus.success, tr)
    | some sid =>
      match get_surface drv sid with
      | none => (set_context drv context_id ctx, VAStatus.success, tr)
      | some s =>
        let r := v4l2_dequeue_frame ctx s dequeueEv
        (set_surface (set_context drv context_id r.1) sid r.2.1, VAStatus.success,
         tr ++ r.2.2.2)

/-- The retry loop of v4l2_SyncSurface (src/vabackend.c lines 913-931):
up to 50 iterations, each attempting a dequeue and timed-waiting 10 ms;
returns the final context and surface and the number of iterations the
body ran. -/
def sync_loop : Nat → V4L2Ctx → V4L2Surface → List (Option Nat) →
    V4L2Ctx × V4L2Surface × Nat
  | 0, ctx, s, _ => (ctx, s, 0)
  | retries + 1, ctx, s, evs =>
    if s.decoded then (ctx, s, 0)
    else
      let d := v4l2_dequeue_frame ctx s (evs.headD none)
      let r := sync_loop retries d.1 d.2.1 evs.tail
      (r.1, r.2.1, r.2.2 + 1)

/-- v4l2_SyncSurface (src/vabackend.c lines 890-938): invalid surface id
fails with the invalid-surface code; a surface with no owning session is
marked decoded and success returned; otherwise the bounded retry loop
runs and the surface is marked decoded unconditionally afterwards.
Returns the driver state, the status and the number of loop iterations.
A context id that resolves to no context cannot arise in the C driver
(the field is a live pointer); the model then skips the loop, marks the
surface decoded and returns success, like the timeout path. -/
def v4l2_SyncSurface (drv : V4L2DriverState) (surface_id : Nat)
    (evs : List (Option Nat)) : V4L2DriverState × VAStatus × Nat :=
  match get_surface drv surface_id with
  | none => (drv, VAStatus.errorInvalidSurface, 0)
  | some s =>
    match s.context with
    | none => (set_surface drv surface_id { s with decoded := true }, VAStatus.success, 0)
    | some ctx_id =>
      match get_context drv ctx_id with
      | none => (set_surface drv surface_id { s with decoded := true }, VAStatus.success, 0)
      | some c =>
        let r := sync_loop 50 c s evs
        (set_surface (set_context drv ctx_id r.1) surface_id { r.2.1 with decoded := true },
         VAStatus.success, r.2.2)

/-- A surface with no owning session, for slot 0 of the surface table. -/
def c4Surf : V4L2Surface :=
  { width := 64, height := 64, capture_idx := -1, decoded := false, context := none }

/-- A one-surface driver: surface id 0x2001 resolves to c4Surf. -/
def c4Drv : V4L2DriverState :=
  { configs := [], contexts := [], surfaces := [some c4Surf], buffers := [],
    hevcGlobals := ⟨0, 0, 0⟩ }

/-- A driver with one live H.264 session (context id 0x1001) and empty
surface and buffer tables: every surface and buffer id is unknown there,
as is context id 0x1002. -/
def c5Drv : V4L2DriverState :=
  { configs := [], contexts := [some (freshCtx CodecKind.h264)], surfaces := [],
    buffers := [], hevcGlobals := ⟨0, 0, 0⟩ }

/-- A session whose single OUTPUT buffer maps 10 bytes while a 20-byte
assembled bitstream is pending: the bound check in the queue step fails. -/
def c10Ctx : V4L2Ctx :=
  { freshCtx CodecKind.h264 with
    bitstream := List.replicate 20 7,
    output_buffers := [⟨10, false⟩] }

/-- A driver hosting c10Ctx as context id 0x1001. -/
def c10Drv : V4L2DriverState :=
  { configs := [], contexts := [some c10Ctx], surfaces := [], buffers := [],
    hevcGlobals := ⟨0, 0, 0⟩ }

/-- A kernel oracle that delivers no events and accepts every request. -/
def quietOracle : KernelOracle :=
  { reclaim := [], wait := [], qbufOk := true, streamonOk := true,
    captureSetupOk := true, captureBufs := [], captureStreamonOk := true }

theorem natBits_length (v n : Nat) : (natBits v n).length = n := by
  induction n with
  | zero => rfl
  | succ n ih => simp [natBits, ih]

theorem natBits_div2 (v : Nat) (n : Nat) :
    natBits v (n + 1) = natBits (v / 2) n ++ [v.testBit 0] := by
  induction n generalizing v with
  | zero => rfl
  | succ n ih =>
    have h : v.testBit (n + 1) = (v / 2).testBit n := by
      simpa using Nat.testBit_succ v n
    calc natBits v (n + 2)
        = v.testBit (n + 1) :: natBits v (n + 1) := rfl
      _ = (v / 2).testBit n :: (natBits (v / 2) n ++ [v.testBit 0]) := by rw [h, ih]
      _ = natBits (v / 2) (n + 1) ++ [v.testBit 0] := rfl

theorem natBits_zero (n : Nat) : natBits 0 n = List.replicate n false := by
  induction n with
  | zero => rfl
  | succ n ih => simp [natBits, ih, List.replicate_succ]

theorem natBits_double (c : Nat) (b : Bool) (n : Nat) :
    natBits (2 * c + (if b then 1 else 0)) (n + 1) = natBits c n ++ [b] := by
  have hdiv : (2 * c + (if b then 1 else 0)) / 2 = c := by
    cases b <;> simp
    all_goals omega
  have hbit : (2 * c + (if b then 1 else 0)).testBit 0 = b := by
    cases b <;> simp [Nat.testBit_zero]
    all_goals omega
  rw [natBits_div2, hdiv, hbit]

/-- A single loop iteration appends one bit to the writer's bit sequence. -/
theorem bw_put_bit_spec (bw : BitWriter) (b : Bool)
    (hinv : BWInv bw) (hroom : bitLen bw < 8 * bw.capacity) :
    writerBits (bw_put_bit bw b) = writerBits bw ++ [b] ∧
    BWInv (bw_put_bit bw b) ∧
    bitLen (bw_put_bit bw b) = bitLen bw + 1 ∧
    (bw_put_bit bw b).capacity = bw.capacity := by
  obtain ⟨hpos, hcur⟩ := hinv
  by_cases h8 : bw.bit_pos + 1 = 8
  · -- the byte is complete and, since there is room, gets flushed
    have hpos7 : bw.bit_pos = 7 := by omega
    have hlen : bw.data.length < bw.capacity := by
      unfold bitLen at hroom; omega
    have hmod : (bw.current_byte * 2 + (if b then 1 else 0)) % 256 =
        2 * bw.current_byte + (if b then 1 else 0) := by
      have : bw.current_byte < 128 := by
        rw [hpos7] at hcur; simpa using hcur
      cases b <;> simp <;> omega
    have heq : bw_put_bit bw b =
        { bw with
          data := bw.data ++ [2 * bw.current_byte + (if b then 1 else 0)],
          bit_pos := 0,
          current_byte := 0 } := by
      unfold bw_put_bit
      rw [if_pos h8, if_pos hlen, hmod]
    have happ : ∀ l : List Nat, ∀ c : Nat,
        bytesToBits (l ++ [c]) = bytesToBits l ++ natBits c 8 := by
      intro l c
      induction l with
      | nil => simp [bytesToBits]
      | cons x xs ih => simp [bytesToBits, ih]
    refine ⟨?_, ⟨by simp [heq], by simp [heq]⟩, ?_, by simp [heq]⟩
    · rw [heq]
      simp only [writerBits, happ]
      rw [natBits_double bw.current_byte b 7, hpos7]
      simp [natBits]
    · rw [heq]
      simp [bitLen, hpos7]
      omega
  · -- fewer than eight bits pending: just extend the pending byte
    have hposlt : bw.bit_pos + 1 < 8 := by omega
    have hcb : 2 * bw.current_byte + (if b then 1 else 0) < 2 ^ (bw.bit_pos + 1) := by
      have : bw.current_byte < 2 ^ bw.bit_pos := hcur
      cases b <;> simp [pow_succ] <;> omega
    have hmod : (bw.current_byte * 2 + (if b then 1 else 0)) % 256 =
        2 * bw.current_byte + (if b then 1 else 0) := by
      have h2 : (2 : Nat) ^ (bw.bit_pos + 1) ≤ 2 ^ 8 :=
        Nat.pow_le_pow_right (by norm_num) (by omega)
      have : 2 * bw.current_byte + (if b then 1 else 0) < 256 := by
        calc 2 * bw.current_byte + (if b then 1 else 0) < 2 ^ (bw.bit_pos + 1) := hcb
          _ ≤ 2 ^ 8 := h2
          _ = 256 := by norm_num
      rw [Nat.mul_comm]; exact Nat.mod_eq_of_lt this
    have heq : bw_put_bit bw b =
        { bw with
          bit_pos := bw.bit_pos + 1,
          current_byte := 2 * bw.current_byte + (if b then 1 else 0) } := by
      unfold bw_put_bit
      rw [if_neg h8, hmod]
    refine ⟨?_, ⟨by simp [heq]; omega, ?_⟩, ?_, by simp [heq]⟩
    · rw [heq]
      simp only [writerBits]
      rw [natBits_double bw.current_byte b bw.bit_pos]
      simp
    · rw [heq]; exact hcb
    · rw [heq]; simp [bitLen]; omega

/-- The bw_put_bits loop appends exactly the chosen bits (given room). -/
theorem bw_put_bits_go_spec (v : Nat) (n : Nat) (bw : BitWriter)
    (hinv : BWInv bw) (hroom : bitLen bw + n ≤ 8 * bw.capacity) :
    writerBits (bw_put_bits_go bw v n) = writerBits bw ++ natBits v n ∧
    BWInv (bw_put_bits_go bw v n) ∧
    bitLen (bw_put_bits_go bw v n) = bitLen bw + n ∧
    (bw_put_bits_go bw v n).capacity = bw.capacity := by
  induction n generalizing bw with
  | zero =>
    exact ⟨by simp [bw_put_bits_go, natBits], hinv, by simp [bw_put_bits_go], rfl⟩
  | succ n ih =>
    have hroom1 : bitLen bw < 8 * bw.capacity := by omega
    obtain ⟨hw, hi, hl, hc⟩ := bw_put_bit_spec bw (v.testBit n) hinv hroom1
    have hroom' : bitLen (bw_put_bit bw (v.testBit n)) + n ≤
        8 * (bw_put_bit bw (v.testBit n)).capacity := by rw [hl, hc]; omega
    obtain ⟨hw', hi', hl', hc'⟩ := ih (bw_put_bit bw (v.testBit n)) hi hroom'
    have hstep : bw_put_bits_go bw v (n + 1) =
        bw_put_bits_go (bw_put_bit bw (v.testBit n)) v n := rfl
    rw [hstep]
    refine ⟨?_, hi', ?_, ?_⟩
    · rw [hw', hw]; simp [natBits]
    · rw [hl', hl]; omega
    · rw [hc', hc]

theorem bitLengthGo_zero (fuel : Nat) : bitLengthGo fuel 0 = 0 := by
  cases fuel <;> simp [bitLengthGo]

theorem bitLengthGo_spec (fuel : Nat) : ∀ v : Nat, v < 2 ^ fuel → 0 < v →
    2 ^ (bitLengthGo fuel v - 1) ≤ v ∧ v < 2 ^ bitLengthGo fuel v ∧
    1 ≤ bitLengthGo fuel v := by
  induction fuel with
  | zero => intro v hv h0; simp at hv; omega
  | succ f ih =>
    intro v hv h0
    have hvne : v ≠ 0 := by omega
    simp only [bitLengthGo, if_neg hvne]
    by_cases hhalf : v / 2 = 0
    · have hv1 : v = 1 := by omega
      subst hv1
      simp [hhalf, bitLengthGo_zero]
    · have hv2 : v / 2 < 2 ^ f := by
        have h2f : v < 2 ^ f * 2 := by
          have : (2 : Nat) ^ (f + 1) = 2 ^ f * 2 := by ring
          omega
        omega
      obtain ⟨h1, h2, h3⟩ := ih (v / 2) hv2 (by omega)
      have hd : bitLengthGo f (v / 2) - 1 + 1 = bitLengthGo f (v / 2) := by omega
      refine ⟨?_, ?_, by omega⟩
      · have e1 : bitLengthGo f (v / 2) + 1 - 1 = bitLengthGo f (v / 2) := by omega
        rw [e1, ← hd, pow_succ]
        omega
      · rw [pow_succ]
        omega

/-- Properties of the bit length of a positive value below 2^64. -/
theorem bitLength_spec (v : Nat) (hv : v < 18446744073709551616) (h0 : 0 < v) :
    2 ^ (bitLength v - 1) ≤ v ∧ v < 2 ^ bitLength v ∧ 1 ≤ bitLength v :=
  bitLengthGo_spec 64 v (by norm_num; omega) h0

theorem bitsToNat_go (l : List Bool) (a : Nat) :
    l.foldl (fun a b => 2 * a + (if b then 1 else 0)) a =
    a * 2 ^ l.length + bitsToNat l := by
  induction l generalizing a with
  | nil => simp [bitsToNat]
  | cons b rest ih =>
    simp only [List.foldl_cons, List.length_cons, bitsToNat]
    rw [ih (2 * a + (if b then 1 else 0)), ih (2 * 0 + (if b then 1 else 0))]
    ring

theorem bitsToNat_natBits (n : Nat) : ∀ x : Nat, bitsToNat (natBits x n) = x % 2 ^ n := by
  induction n with
  | zero => intro x; simp [natBits, bitsToNat, Nat.mod_one]
  | succ n ih =>
    intro x
    have hcons : natBits x (n + 1) = x.testBit n :: natBits x n := rfl
    rw [hcons]
    simp only [bitsToNat, List.foldl_cons]
    rw [bitsToNat_go, natBits_length]
    rw [ih x]
    have hmul : x % (2 ^ n * 2) = x % 2 ^ n + 2 ^ n * (x / 2 ^ n % 2) := Nat.mod_mul
    have hpow : (2 : Nat) ^ (n + 1) = 2 ^ n * 2 := by ring
    have htb : x.testBit n = decide (x / 2 ^ n % 2 = 1) := Nat.testBit_to_div_mod
    rw [htb, hpow, hmul]
    rcases Nat.mod_two_eq_zero_or_one (x / 2 ^ n) with h | h <;> (rw [h]; simp)
    all_goals omega

theorem countLeadingZeros_replicate (k : Nat) (l : List Bool) :
    countLeadingZeros (List.replicate k false ++ (true :: l)) = k := by
  induction k with
  | zero => simp [countLeadingZeros]
  | succ k ih => simpa [List.replicate_succ, countLeadingZeros] using ih

/-- Decoding a well-formed Exp-Golomb codeword: `k` leading zeros, the
`k+1`-bit field holding `x` (with its top bit set), then arbitrary tail. -/
theorem decode_ue_codeword (k x : Nat) (tail : List Bool)
    (h1 : 2 ^ k ≤ x) (h2 : x < 2 ^ (k + 1)) :
    decode_ue (List.replicate k false ++ natBits x (k + 1) ++ tail) =
      some (x - 1, tail) := by
  have htop : x.testBit k = true := by
    rw [Nat.testBit_to_div_mod]
    have hdiv : x / 2 ^ k = 1 := by
      have hle : 1 ≤ x / 2 ^ k := (Nat.le_div_iff_mul_le (Nat.pos_pow_of_pos k (by norm_num))).mpr (by omega)
      have hlt : x / 2 ^ k < 2 := by
        rw [Nat.div_lt_iff_lt_mul (Nat.pos_pow_of_pos k (by norm_num))]
        have : (2 : Nat) ^ (k + 1) = 2 ^ k * 2 := by ring
        omega
      omega
    simp [hdiv]
  have hsplit : natBits x (k + 1) = true :: natBits x k := by
    show x.testBit k :: natBits x k = true :: natBits x k
    rw [htop]
  rw [hsplit]
  have hassoc : List.replicate k false ++ (true :: natBits x k) ++ tail =
      List.replicate k false ++ (true :: (natBits x k ++ tail)) := by simp
  rw [hassoc]
  have hclz : countLeadingZeros (List.replicate k false ++ (true :: (natBits x k ++ tail))) = k :=
    countLeadingZeros_replicate k (natBits x k ++ tail)
  have hlen : (List.replicate k false ++ (true :: (natBits x k ++ tail))).length =
      k + (k + 1) + tail.length := by
    simp [natBits_length]; omega
  have hdropk : (List.replicate k false ++ (true :: (natBits x k ++ tail))).drop k =
      true :: (natBits x k ++ tail) := by
    have := List.drop_left (List.replicate k false) (true :: (natBits x k ++ tail))
    rwa [List.length_replicate] at this
  have htake : (true :: (natBits x k ++ tail)).take (k + 1) = true :: natBits x k := by
    have h : (natBits x k ++ tail).take k = natBits x k := by
      have := List.take_left (natBits x k) tail
      rwa [natBits_length] at this
    rw [List.take_succ_cons, h]
  have hdrop1 : (true :: (natBits x k ++ tail)).drop (k + 1) = tail := by
    have h : (natBits x k ++ tail).drop k = tail := by
      have := List.drop_left (natBits x k) tail
      rwa [natBits_length] at this
    rw [List.drop_succ_cons, h]
  have hval : bitsToNat (true :: natBits x k) = x := by
    have := bitsToNat_natBits (k + 1) x
    rw [hsplit] at this
    rw [this]
    exact Nat.mod_eq_of_lt h2
  unfold decode_ue
  rw [hclz, hlen, if_pos (by omega), hdropk, htake, hdrop1, hval]

/-- bw_put_ue appends exactly the Exp-Golomb codeword of its argument. -/
theorem bw_put_ue_spec (bw : BitWriter) (m : Nat)
    (hm : m + 1 < 4294967296) (hinv : BWInv bw)
    (hroom : bitLen bw + (2 * bitLength (m + 1) - 1) ≤ 8 * bw.capacity) :
    writerBits (bw_put_ue bw m) =
      writerBits bw ++ (List.replicate (bitLength (m + 1) - 1) false
        ++ natBits (m + 1) (bitLength (m + 1))) ∧
    BWInv (bw_put_ue bw m) ∧
    bitLen (bw_put_ue bw m) = bitLen bw + (2 * bitLength (m + 1) - 1) ∧
    (bw_put_ue bw m).capacity = bw.capacity := by
  have hu1 : u32 m = m := Nat.mod_eq_of_lt (by omega)
  have hu2 : u32 (m + 1) = m + 1 := Nat.mod_eq_of_lt hm
  have hs1 : 1 ≤ bitLength (m + 1) :=
    (bitLength_spec (m + 1) (by omega) (by omega)).2.2
  have hue : bw_put_ue bw m =
      bw_put_bits (bw_put_bits bw 0 (bitLength (m + 1) - 1)) (m + 1) (bitLength (m + 1)) := by
    unfold bw_put_ue
    rw [hu1, hu2]
  have h0 : u32 0 = 0 := rfl
  have step1 := bw_put_bits_go_spec 0 (bitLength (m + 1) - 1) bw hinv (by omega)
  obtain ⟨hw1, hi1, hl1, hc1⟩ := step1
  have step2 := bw_put_bits_go_spec (u32 (m + 1)) (bitLength (m + 1))
      (bw_put_bits_go bw 0 (bitLength (m + 1) - 1)) hi1 (by rw [hl1, hc1]; omega)
  obtain ⟨hw2, hi2, hl2, hc2⟩ := step2
  have hb1 : bw_put_bits bw 0 (bitLength (m + 1) - 1) =
      bw_put_bits_go bw 0 (bitLength (m + 1) - 1) := by
    unfold bw_put_bits; rw [h0]
  have hb2 : bw_put_bits (bw_put_bits_go bw 0 (bitLength (m + 1) - 1)) (m + 1) (bitLength (m + 1)) =
      bw_put_bits_go (bw_put_bits_go bw 0 (bitLength (m + 1) - 1)) (u32 (m + 1)) (bitLength (m + 1)) := by
    unfold bw_put_bits; rfl
  rw [hue, hb1, hb2]
  refine ⟨?_, hi2, ?_, ?_⟩
  · rw [hw2, hu2, hw1, natBits_zero]
    simp
  · rw [hl2, hl1]; omega
  · rw [hc2, hc1]

/-- Full unsigned round trip on a fresh writer of adequate capacity. -/
theorem decode_ue_put_ue (cap m : Nat) (hm : m + 1 < 4294967296) (hcap : 8 ≤ cap) :
    decode_ue (writerBits (bw_put_ue (bw_init cap) m)) = some (m, []) := by
  have hinv : BWInv (bw_init cap) := by constructor <;> simp [bw_init]
  have hsle : bitLength (m + 1) ≤ 32 := by
    by_contra h
    have h33 : 33 ≤ bitLength (m + 1) := by omega
    have := (bitLength_spec (m + 1) (by omega) (by omega)).1
    have hge : 2 ^ 32 ≤ 2 ^ (bitLength (m + 1) - 1) :=
      Nat.pow_le_pow_right (by norm_num) (by omega)
    have : (4294967296 : Nat) = 2 ^ 32 := by norm_num
    omega
  have hroom : bitLen (bw_init cap) + (2 * bitLength (m + 1) - 1) ≤ 8 * (bw_init cap).capacity := by
    simp [bitLen, bw_init]
    omega
  obtain ⟨hw, _, _, _⟩ := bw_put_ue_spec (bw_init cap) m hm hinv hroom
  rw [hw]
  have hwinit : writerBits (bw_init cap) = [] := by simp [writerBits, bw_init, bytesToBits, natBits]
  rw [hwinit, List.nil_append]
  obtain ⟨h1, h2, h3⟩ := bitLength_spec (m + 1) (by omega) (by omega)
  have hk : bitLength (m + 1) - 1 + 1 = bitLength (m + 1) := by omega
  have := decode_ue_codeword (bitLength (m + 1) - 1) (m + 1) [] h1 (by rwa [hk])
  rw [hk] at this
  simpa using this

/-- Signed round trip on a fresh writer of adequate capacity. -/
theorem decode_se_put_se (cap : Nat) (s : Int) (hs : s.natAbs ≤ 1073741824) (hcap : 8 ≤ cap) :
    decode_se (writerBits (bw_put_se (bw_init cap) s)) = some (s, []) := by
  by_cases hneg : s ≤ 0
  · have hemod : (-s * 2).emod 4294967296 = -s * 2 :=
      Int.emod_eq_of_lt (by omega) (by omega)
    have hcast : ((-s * 2).emod 4294967296).toNat = 2 * s.natAbs := by
      rw [hemod]; omega
    have hform : bw_put_se (bw_init cap) s = bw_put_ue (bw_init cap) (2 * s.natAbs) := by
      unfold bw_put_se
      rw [if_pos hneg, hcast]
    have hue := decode_ue_put_ue cap (2 * s.natAbs) (by omega) hcap
    rw [hform]
    unfold decode_se
    rw [hue, Option.map_some']
    simp only
    have hmod : (2 * s.natAbs) % 2 = 0 := by omega
    rw [if_pos hmod]
    simp only [Option.some.injEq, Prod.mk.injEq]
    exact ⟨by omega, trivial⟩
  · have hpos : 0 < s := by omega
    have hemod : (s * 2 - 1).emod 4294967296 = s * 2 - 1 :=
      Int.emod_eq_of_lt (by omega) (by omega)
    have hcast : ((s * 2 - 1).emod 4294967296).toNat = 2 * s.natAbs - 1 := by
      rw [hemod]; omega
    have hform : bw_put_se (bw_init cap) s = bw_put_ue (bw_init cap) (2 * s.natAbs - 1) := by
      unfold bw_put_se
      rw [if_neg hneg, hcast]
    have habs1 : 1 ≤ s.natAbs := by omega
    have hue := decode_ue_put_ue cap (2 * s.natAbs - 1) (by omega) hcap
    rw [hform]
    unfold decode_se
    rw [hue, Option.map_some']
    simp only
    rw [if_neg (by omega)]
    simp only [Option.some.injEq, Prod.mk.injEq]
    exact ⟨by omega, trivial⟩

/-- C1: Exp-Golomb round-trip.  For every non-negative value v at most
2^31 - 2, decoding (per the standard ue definition) the bit sequence
produced by the bit-writer's put_ue yields v; for every signed value of
magnitude at most 2^30, decoding the output of put_se per the standard
se definition yields the value back; and put_ue 0 emits exactly the
single bit 1.  Stated over a fresh writer of any capacity of at least
8 bytes (the longest codeword in range is 63 bits). -/
theorem C1_exp_golomb_roundtrip (cap : Nat) (hcap : 8 ≤ cap) :
    (∀ v : Nat, v ≤ 2 ^ 31 - 2 →
      decode_ue (writerBits (bw_put_ue (bw_init cap) v)) = some (v, [])) ∧
    (∀ s : Int, s.natAbs ≤ 2 ^ 30 →
      decode_se (writerBits (bw_put_se (bw_init cap) s)) = some (s, [])) ∧
    writerBits (bw_put_ue (bw_init cap) 0) = [true] := by
  refine ⟨fun v hv => decode_ue_put_ue cap v (by norm_num at hv ⊢; omega) hcap,
          fun s hs => decode_se_put_se cap s (by norm_num at hs ⊢; omega) hcap, ?_⟩
  have hbl : bitLength (u32 (u32 0 + 1)) = 1 := by decide
  unfold bw_put_ue
  rw [hbl]
  simp [bw_put_bits, bw_put_bits_go, u32, bw_put_bit, bw_init, writerBits, bytesToBits, natBits]

/-- Witness for C1 at capacity 8 with v = 5 and s = -3. -/
theorem C1_exp_golomb_roundtrip_witness :
    decode_ue (writerBits (bw_put_ue (bw_init 8) 5)) = some (5, []) ∧
    decode_se (writerBits (bw_put_se (bw_init 8) (-3))) = some (-3, []) := by
  obtain ⟨h1, h2, _⟩ := C1_exp_golomb_roundtrip 8 (by norm_num)
  exact ⟨h1 5 (by norm_num), h2 (-3) (by norm_num)⟩

/-- C9 counterexample: bw_finish on a freshly initialised bit-writer
does not produce the byte 0x80 of length 1 (bit_pos is 0, so the
entire body of bw_finish is skipped). -/
theorem C9_finish_fresh_counterexample :
    ¬ ((bw_finish (bw_init 16)).data = [128] ∧
       (bw_finish (bw_init 16)).data.length = 1) := by
  decide

/-- C9 amended: calling finish on a freshly initialised bit-writer, with
no bits written beforehand, produces no bytes at all and returns length
0 (RBSP trailing bits are emitted only when a partial byte is pending). -/
theorem C9_finish_fresh_amended (cap : Nat) :
    (bw_finish (bw_init cap)).data = [] ∧ (bw_finish (bw_init cap)).data.length = 0 := by
  constructor <;> simp [bw_finish, bw_init]

theorem firstMatchingLevel_dup (b x y : Nat) (rest : List (Nat × Nat)) (m : Nat) :
    firstMatchingLevel ((b, x) :: (b, y) :: rest) m =
    firstMatchingLevel ((b, x) :: rest) m := by
  by_cases h : m ≤ b <;> simp [firstMatchingLevel, h]

/-- A row whose bound equals the previous row's bound never fires. -/
theorem firstMatchingLevel_collapse (pre : List (Nat × Nat)) :
    ∀ (b x y : Nat) (post : List (Nat × Nat)) (m : Nat),
    firstMatchingLevel (pre ++ (b, x) :: (b, y) :: post) m =
    firstMatchingLevel (pre ++ (b, x) :: post) m := by
  induction pre with
  | nil => intro b x y post m; exact firstMatchingLevel_dup b x y post m
  | cons p rest ih =>
    intro b x y post m
    obtain ⟨c, z⟩ := p
    by_cases h : m ≤ c <;> simp [firstMatchingLevel, h, ih]

/-- The result of the first-match scan is 52 or one of the row values. -/
theorem firstMatchingLevel_mem (l : List (Nat × Nat)) (m : Nat) :
    firstMatchingLevel l m = 52 ∨ firstMatchingLevel l m ∈ l.map Prod.snd := by
  induction l with
  | nil => left; rfl
  | cons p rest ih =>
    obtain ⟨b, x⟩ := p
    by_cases h : m ≤ b
    · right; simp [firstMatchingLevel, h]
    · rcases ih with h52 | hmem
      · left; simpa [firstMatchingLevel, h] using h52
      · right
        simp only [firstMatchingLevel, if_neg h, List.map_cons, List.mem_cons]
        right; exact hmem

/-- C7: the H.264 level computation returns the value of the first table
row whose bound is satisfied by macroblock-count x (num_ref_frames + 1);
the duplicate second max_dpb_mbs <= 184320 row is unreachable, so the
function never returns 42. -/
theorem C7_h264_level_first_match (pic : H264PicParams) :
    h264_calc_level pic = firstMatchingLevel h264_level_table (h264_max_dpb_mbs pic) ∧
    h264_calc_level pic ≠ 42 := by
  have heq : h264_calc_level pic = firstMatchingLevel h264_level_table (h264_max_dpb_mbs pic) :=
    rfl
  refine ⟨heq, ?_⟩
  rw [heq]
  have hsplit : h264_level_table =
      [(396, 10), (900, 11), (2376, 12), (4752, 20), (8100, 21), (18000, 22),
       (20480, 30), (36864, 31), (32768, 32), (110400, 40)] ++
      (184320, 41) :: (184320, 42) ::
      [(696320, 50), (696320, 51)] := rfl
  rw [hsplit, firstMatchingLevel_collapse]
  rcases firstMatchingLevel_mem
      ([(396, 10), (900, 11), (2376, 12), (4752, 20), (8100, 21), (18000, 22),
        (20480, 30), (36864, 31), (32768, 32), (110400, 40)] ++
       (184320, 41) :: [(696320, 50), (696320, 51)]) (h264_max_dpb_mbs pic) with h52 | hmem
  · omega
  · intro heq42
    rw [heq42] at hmem
    exact absurd hmem (by decide)

/-- Evaluation of one slice-loop iteration on an IDR slice with the flag
clear and both caches non-empty. -/
theorem h264_slice_step_idr_unsent (buf : List Nat) (ctx : V4L2Ctx) (sp : SliceParam)
    (hsent : ctx.h264.sps_pps_sent = false)
    (hsl : 0 < ctx.h264.last_sps.length)
    (hpl : 0 < ctx.h264.last_pps.length)
    (hidr : buf.getD sp.slice_data_offset 0 % 32 = 5) :
    h264_slice_step buf ctx sp =
      { ctx with
        bitstream := ctx.bitstream ++ NAL_START_CODE ++ ctx.h264.last_sps
          ++ NAL_START_CODE ++ ctx.h264.last_pps
          ++ NAL_START_CODE ++ ((buf.drop sp.slice_data_offset).take sp.slice_data_size),
        h264 := { ctx.h264 with sps_pps_sent := true } } := by
  unfold h264_slice_step
  simp only []
  rw [if_pos (And.intro hidr hsent), if_pos hsl]
  simp only []
  rw [if_pos hpl]
  simp [bitstream_append]

/-- Evaluation of one slice-loop iteration while the flag is set: only
start code and slice bytes are appended, the codec state is unchanged. -/
theorem h264_slice_step_sent (buf : List Nat) (ctx : V4L2Ctx) (sp : SliceParam)
    (hsent : ctx.h264.sps_pps_sent = true) :
    h264_slice_step buf ctx sp =
      { ctx with
        bitstream := ctx.bitstream ++ NAL_START_CODE ++
          ((buf.drop sp.slice_data_offset).take sp.slice_data_size) } := by
  unfold h264_slice_step
  simp only []
  rw [if_neg (by simp [hsent])]
  simp [bitstream_append]

/-- C2: H.264 assembler ordering and idempotence.  From a session state
with sps_pps_sent false and non-empty cached SPS/PPS, a slice-data
buffer whose two slices are an IDR (low five bits of the first byte
equal 5) then a non-IDR appends start-code+SPS, start-code+PPS,
start-code+IDR-bytes, start-code+non-IDR-bytes in that order and sets
the flag; and while the flag is true a further IDR slice appends only
start-code+slice-bytes without re-emitting SPS or PPS. -/
theorem C2_h264_assembler_ordering
    (ctx : V4L2Ctx) (buf : List Nat) (sp1 sp2 : SliceParam)
    (hsent : ctx.h264.sps_pps_sent = false)
    (hsps : ctx.h264.last_sps ≠ [])
    (hpps : ctx.h264.last_pps ≠ [])
    (hparams : ctx.last_slice_params = some [sp1, sp2])
    (hcount : ctx.last_slice_count = 2)
    (hidr : buf.getD sp1.slice_data_offset 0 % 32 = 5) :
    (h264_handle_slice_data ctx buf).bitstream =
      ctx.bitstream ++ NAL_START_CODE ++ ctx.h264.last_sps
        ++ NAL_START_CODE ++ ctx.h264.last_pps
        ++ NAL_START_CODE ++ ((buf.drop sp1.slice_data_offset).take sp1.slice_data_size)
        ++ NAL_START_CODE ++ ((buf.drop sp2.slice_data_offset).take sp2.slice_data_size) ∧
    (h264_handle_slice_data ctx buf).h264.sps_pps_sent = true ∧
    (∀ (ctx2 : V4L2Ctx) (buf2 : List Nat) (sp : SliceParam),
      ctx2.h264.sps_pps_sent = true →
      ctx2.last_slice_params = some [sp] →
      ctx2.last_slice_count = 1 →
      buf2.getD sp.slice_data_offset 0 % 32 = 5 →
      (h264_handle_slice_data ctx2 buf2).bitstream =
        ctx2.bitstream ++ NAL_START_CODE ++
          ((buf2.drop sp.slice_data_offset).take sp.slice_data_size) ∧
      (h264_handle_slice_data ctx2 buf2).h264 = ctx2.h264) := by
  have hsl : 0 < ctx.h264.last_sps.length := List.length_pos.mpr hsps
  have hpl : 0 < ctx.h264.last_pps.length := List.length_pos.mpr hpps
  have hrun : h264_handle_slice_data ctx buf =
      h264_slice_step buf (h264_slice_step buf ctx sp1) sp2 := by
    unfold h264_handle_slice_data
    rw [hparams, hcount]
    rfl
  have hstep1 := h264_slice_step_idr_unsent buf ctx sp1 hsent hsl hpl hidr
  have hsent1 : (h264_slice_step buf ctx sp1).h264.sps_pps_sent = true := by
    rw [hstep1]
  have hstep2 := h264_slice_step_sent buf (h264_slice_step buf ctx sp1) sp2 hsent1
  refine ⟨?_, ?_, ?_⟩
  · rw [hrun, hstep2, hstep1]
  · rw [hrun, hstep2, hstep1]
  · intro ctx2 buf2 sp hsent2 hparams2 hcount2 hidr2
    have hrun2 : h264_handle_slice_data ctx2 buf2 = h264_slice_step buf2 ctx2 sp := by
      unfold h264_handle_slice_data
      rw [hparams2, hcount2]
      rfl
    rw [hrun2, h264_slice_step_sent buf2 ctx2 sp hsent2]
    exact ⟨by simp [List.append_assoc], rfl⟩

/-- C6: for the 4K Main-10 parameters the synthesised VPS carries
general_tier_flag 1, general_profile_idc 2 and general_level_idc 150 (the
profile-tier-level block starts at bit 48 after the 16-bit NAL header and
32 bits of VPS fields: profile_space at 48-49, tier at 50, profile_idc at
51-55, the 32 compatibility flags, 4 constraint flags and 44 reserved
bits, then level_idc at 136-143), and the SPS VUI (starting at bit 225 of
this SPS) encodes colour_primaries 9, transfer_characteristics 16,
matrix_coeffs 9; in general the tier flag is 1 exactly when the computed
level reaches 150 and the luma sample count reaches 8294400, else 0. -/
theorem C6_hevc_4k_hdr_profile_tier_level :
    ((bytesToBits (hevc_generate_vps hevcPic4K HEADER_BUF_SIZE).data).drop 50).take 1 =
      [true] ∧
    bitsToNat (((bytesToBits (hevc_generate_vps hevcPic4K HEADER_BUF_SIZE).data).drop 51).take 5) = 2 ∧
    bitsToNat (((bytesToBits (hevc_generate_vps hevcPic4K HEADER_BUF_SIZE).data).drop 136).take 8) = 150 ∧
    ((bytesToBits (hevc_generate_sps hevcPic4K HEADER_BUF_SIZE).data).drop 225).take 39 =
      hdrVuiPattern ∧
    (∀ pic : HEVCPicParams,
      (hevc_calc_tier pic (hevc_calc_level pic) = 1 ↔
        150 ≤ hevc_calc_level pic ∧
          8294400 ≤ pic.pic_width_in_luma_samples * pic.pic_height_in_luma_samples) ∧
      (hevc_calc_tier pic (hevc_calc_level pic) = 0 ↔
        ¬(150 ≤ hevc_calc_level pic ∧
          8294400 ≤ pic.pic_width_in_luma_samples * pic.pic_height_in_luma_samples))) := by
  refine ⟨by decide, by decide, by decide, by decide, ?_⟩
  intro pic
  unfold hevc_calc_tier
  by_cases h : 150 ≤ hevc_calc_level pic ∧
      8294400 ≤ pic.pic_width_in_luma_samples * pic.pic_height_in_luma_samples
  · rw [if_pos h]
    simp [h]
  · rw [if_neg h]
    simp [h]

/-- Witness for C2 at the concrete session state and buffer. -/
theorem C2_h264_assembler_ordering_witness :
    (h264_handle_slice_data c2Ctx c2Buf).bitstream =
      [9, 0, 0, 1, 103, 0, 0, 1, 104, 0, 0, 1, 101, 170, 0, 0, 1, 65, 187] ∧
    (h264_handle_slice_data c2Ctx c2Buf).h264.sps_pps_sent = true := by
  have h := C2_h264_assembler_ordering c2Ctx c2Buf ⟨0, 2⟩ ⟨2, 2⟩ rfl (by decide) (by decide)
    rfl rfl (by decide)
  refine ⟨?_, h.2.1⟩
  rw [h.1]
  decide

/-- C3 evaluation: neither picture-parameter handler ever clears the
header-emitted flag — for every input it is preserved verbatim — and at
the failing input (cached 64x64 headers already emitted, then a 128x64
submission) regeneration is triggered by the key change while
params_sent stays true, contradicting the claim that regeneration
clears it. -/
theorem C3_flag_not_cleared_on_regen :
    (∀ (ctx : V4L2Ctx) (pic : H264PicParams),
      (h264_handle_picture_params ctx pic).h264.sps_pps_sent = ctx.h264.sps_pps_sent) ∧
    (∀ (g : HevcGlobals) (ctx : V4L2Ctx) (pic : HEVCPicParams),
      ((hevc_handle_picture_params g ctx pic).2).hevc.params_sent = ctx.hevc.params_sent) ∧
    hevc_params_changed c3Globals c3Ctx hevcPicB = true ∧
    ((hevc_handle_picture_params c3Globals c3Ctx hevcPicB).2).hevc.params_sent = true ∧
    (h264_handle_picture_params c3CtxH h264PicZero).h264.sps_pps_sent = true := by
  refine ⟨fun ctx pic => rfl, ?_, by decide, ?_, rfl⟩
  · intro g ctx pic
    unfold hevc_handle_picture_params
    by_cases h : hevc_params_changed g ctx pic = true
    · rw [if_pos h]
    · rw [if_neg h]
  · show ((hevc_handle_picture_params c3Globals c3Ctx hevcPicB).2).hevc.params_sent = true
    unfold hevc_handle_picture_params
    rw [if_pos (by decide)]
    rfl

/-- C8 evaluation: the HEVC header-cache key is process-global, not
session-private.  Session A submits 64x64 parameters; if A submits the
same parameters again immediately, no regeneration is triggered, but if
a second session B's 128x64 submission is interleaved, A's identical
second submission does trigger regeneration — the interleaving changes
session A's observable regeneration behaviour. -/
theorem C8_hevc_cache_cross_session_interference :
    hevc_params_changed
      (hevc_handle_picture_params ⟨0, 0, 0⟩ (freshCtx CodecKind.hevc) hevcPicA).1
      (hevc_handle_picture_params ⟨0, 0, 0⟩ (freshCtx CodecKind.hevc) hevcPicA).2
      hevcPicA = false ∧
    hevc_params_changed
      (hevc_handle_picture_params
        (hevc_handle_picture_params ⟨0, 0, 0⟩ (freshCtx CodecKind.hevc) hevcPicA).1
        (freshCtx CodecKind.hevc) hevcPicB).1
      (hevc_handle_picture_params ⟨0, 0, 0⟩ (freshCtx CodecKind.hevc) hevcPicA).2
      hevcPicA = true := by
  decide

theorem getD_some_lt_length {α : Type} (l : List (Option α)) (n : Nat) (x : α)
    (h : l.getD n none = some x) : n < l.length := by
  by_contra hn
  rw [List.getD_eq_default] at h
  · exact Option.noConfusion h
  · omega

theorem getD_set_self {α : Type} (l : List (Option α)) (n : Nat) (x : Option α)
    (h : n < l.length) : (l.set n x).getD n none = x := by
  induction l generalizing n with
  | nil => simp at h
  | cons a t ih =>
    cases n with
    | zero => rfl
    | succ m =>
      show (t.set m x).getD m none = x
      exact ih m (by simpa using h)

theorem set_getD_self {α : Type} (l : List (Option α)) (n : Nat) (x : α)
    (h : l.getD n none = some x) : l.set n (some x) = l := by
  induction l generalizing n with
  | nil => rfl
  | cons a t ih =>
    cases n with
    | zero =>
      have ha : a = some x := h
      rw [ha]
      rfl
    | succ m =>
      show a :: t.set m (some x) = a :: t
      rw [ih m (show t.getD m none = some x from h)]

/-- Unfolding equation for one iteration of the sync retry loop. -/
theorem sync_loop_succ (n : Nat) (ctx : V4L2Ctx) (s : V4L2Surface)
    (evs : List (Option Nat)) :
    sync_loop (n + 1) ctx s evs =
      if s.decoded then (ctx, s, 0)
      else
        ((sync_loop n (v4l2_dequeue_frame ctx s (evs.headD none)).1
            (v4l2_dequeue_frame ctx s (evs.headD none)).2.1 evs.tail).1,
         (sync_loop n (v4l2_dequeue_frame ctx s (evs.headD none)).1
            (v4l2_dequeue_frame ctx s (evs.headD none)).2.1 evs.tail).2.1,
         (sync_loop n (v4l2_dequeue_frame ctx s (evs.headD none)).1
            (v4l2_dequeue_frame ctx s (evs.headD none)).2.1 evs.tail).2.2 + 1) := by
  by_cases h : s.decoded = true
  · rw [if_pos h]
    unfold sync_loop
    rw [if_pos h]
  · rw [if_neg h]
    conv_lhs => unfold sync_loop
    rw [if_neg h]

/-- The sync retry loop runs its body at most `fuel` times. -/
theorem sync_loop_le (fuel : Nat) : ∀ (ctx : V4L2Ctx) (s : V4L2Surface)
    (evs : List (Option Nat)), (sync_loop fuel ctx s evs).2.2 ≤ fuel := by
  induction fuel with
  | zero => intro ctx s evs; simp [sync_loop]
  | succ n ih =>
    intro ctx s evs
    rw [sync_loop_succ]
    by_cases h : s.decoded = true
    · rw [if_pos h]
      exact Nat.zero_le _
    · rw [if_neg h]
      have hle := ih (v4l2_dequeue_frame ctx s (evs.headD none)).1
        (v4l2_dequeue_frame ctx s (evs.headD none)).2.1 evs.tail
      show _ + 1 ≤ n + 1
      omega

/-- C4: for every surface id that resolves to an existing surface,
SyncSurface returns success on every path, its dequeue loop runs at most
50 iterations, and the surface stored back under that id has its decoded
flag true — including the timeout case (the dequeue oracle never
delivers a frame) and the case of a surface with no owning session. -/
theorem C4_sync_surface_bounded_success
    (drv : V4L2DriverState) (sid : Nat) (s : V4L2Surface) (evs : List (Option Nat))
    (h : get_surface drv sid = some s) :
    (v4l2_SyncSurface drv sid evs).2.1 = VAStatus.success ∧
    (v4l2_SyncSurface drv sid evs).2.2 ≤ 50 ∧
    ∃ s2, get_surface (v4l2_SyncSurface drv sid evs).1 sid = some s2 ∧
      s2.decoded = true := by
  have hidx : 0 ≤ SURFACE_INDEX sid ∧ SURFACE_INDEX sid < (MAX_SURFACES : Int) := by
    by_contra hc
    unfold get_surface table_get at h
    rw [if_neg hc] at h
    exact Option.noConfusion h
  have hentry : drv.surfaces.getD (SURFACE_INDEX sid).toNat none = some s := by
    unfold get_surface table_get at h
    rwa [if_pos hidx] at h
  have hlen : (SURFACE_INDEX sid).toNat < drv.surfaces.length :=
    getD_some_lt_length _ _ _ hentry
  have hget : ∀ (drv2 : V4L2DriverState) (s2 : V4L2Surface),
      drv2.surfaces.length = drv.surfaces.length →
      get_surface (set_surface drv2 sid s2) sid = some s2 := by
    intro drv2 s2 hl
    unfold get_surface table_get set_surface
    rw [if_pos hidx]
    exact getD_set_self _ _ _ (by simpa [hl] using hlen)
  have heq : v4l2_SyncSurface drv sid evs =
      (match s.context with
       | none => (set_surface drv sid { s with decoded := true }, VAStatus.success, 0)
       | some cid =>
         match get_context drv cid with
         | none => (set_surface drv sid { s with decoded := true }, VAStatus.success, 0)
         | some c =>
           (set_surface (set_context drv cid (sync_loop 50 c s evs).1) sid
              { (sync_loop 50 c s evs).2.1 with decoded := true },
            VAStatus.success, (sync_loop 50 c s evs).2.2)) := by
    unfold v4l2_SyncSurface
    rw [h]
  cases hsc : s.context with
  | none =>
    rw [hsc] at heq
    rw [heq]
    exact ⟨rfl, Nat.zero_le _, _, hget drv _ rfl, rfl⟩
  | some cid =>
    have heq2 : v4l2_SyncSurface drv sid evs =
        (match get_context drv cid with
         | none => (set_surface drv sid { s with decoded := true }, VAStatus.success, 0)
         | some c =>
           (set_surface (set_context drv cid (sync_loop 50 c s evs).1) sid
              { (sync_loop 50 c s evs).2.1 with decoded := true },
            VAStatus.success, (sync_loop 50 c s evs).2.2)) := by
      rw [heq, hsc]
    cases hcc : get_context drv cid with
    | none =>
      rw [hcc] at heq2
      rw [heq2]
      exact ⟨rfl, Nat.zero_le _, _, hget drv _ rfl, rfl⟩
    | some c =>
      rw [hcc] at heq2
      rw [heq2]
      exact ⟨rfl, sync_loop_le 50 c s evs,
        _, hget (set_context drv cid (sync_loop 50 c s evs).1) _ rfl, rfl⟩

theorem C4_sync_surface_bounded_success_witness :
    (v4l2_SyncSurface c4Drv 8193 []).2.1 = VAStatus.success ∧
    (v4l2_SyncSurface c4Drv 8193 []).2.2 ≤ 50 ∧
    ∃ s2, get_surface (v4l2_SyncSurface c4Drv 8193 []).1 8193 = some s2 ∧
      s2.decoded = true :=
  C4_sync_surface_bounded_success c4Drv 8193 c4Surf [] (by decide)

/-- Skipping lemma: when every buffer id in the list resolves to no
buffer, the dispatch fold of v4l2_RenderPicture leaves its accumulator
untouched. -/
theorem foldl_render_skip (drv : V4L2DriverState) :
    ∀ (bids : List Nat), (∀ b ∈ bids, get_buffer drv b = none) →
    ∀ init : HevcGlobals × V4L2Ctx,
      bids.foldl
        (fun (acc : HevcGlobals × V4L2Ctx) bid =>
          match get_buffer drv bid with
          | none => acc
          | some b => render_process_buffer acc.1 acc.2 b) init = init := by
  intro bids
  induction bids with
  | nil => intro _ init; rfl
  | cons b rest ih =>
    intro hall init
    have hb : get_buffer drv b = none := hall b (by simp)
    simp only [List.foldl_cons, hb]
    exact ih (fun x hx => hall x (by simp [hx])) init

/-- Shape of v4l2_RenderPicture on a resolved context id. -/
theorem renderPicture_some (drv : V4L2DriverState) (cid : Nat) (ctx0 : V4L2Ctx)
    (bids : List Nat) (h : get_context drv cid = some ctx0) :
    v4l2_RenderPicture drv cid bids =
      ({ set_context drv cid
           (bids.foldl
             (fun (acc : HevcGlobals × V4L2Ctx) bid =>
               match get_buffer drv bid with
               | none => acc
               | some b => render_process_buffer acc.1 acc.2 b)
             (drv.hevcGlobals, ctx0)).2 with
         hevcGlobals :=
           (bids.foldl
             (fun (acc : HevcGlobals × V4L2Ctx) bid =>
               match get_buffer drv bid with
               | none => acc
               | some b => render_process_buffer acc.1 acc.2 b)
             (drv.hevcGlobals, ctx0)).1 },
       VAStatus.success) := by
  unfold v4l2_RenderPicture
  rw [h]

/-- C5 counterexample: destroying an unknown buffer id returns success,
not the invalid-buffer code the claim requires (the driver state is
indeed left unchanged). -/
theorem C5_destroy_unknown_counterexample :
    (v4l2_DestroyBuffer c5Drv 12289).2 = VAStatus.success ∧
    ¬ (v4l2_DestroyBuffer c5Drv 12289).2 = VAStatus.errorInvalidBuffer ∧
    (v4l2_DestroyBuffer c5Drv 12289).1 = c5Drv := by
  decide

/-- C5 (amended): an unknown context id makes RenderPicture and
EndPicture fail with the invalid-context code and an unknown surface id
makes SyncSurface fail with the invalid-surface code, each leaving the
driver untouched; but DestroyBuffer on an unknown buffer id returns
success (not invalid-buffer) with the driver untouched, and
RenderPicture silently skips unknown buffer ids, returning success with
the driver unchanged. -/
theorem C5_unknown_handle_amended
    (drv : V4L2DriverState) (cid sid bid rid : Nat) (ctx0 : V4L2Ctx)
    (bids : List Nat) (k : KernelOracle) (ev : Option Nat) (evs : List (Option Nat))
    (hc : get_context drv cid = none)
    (hs : get_surface drv sid = none)
    (hb : get_buffer drv bid = none)
    (hr : get_context drv rid = some ctx0)
    (hall : ∀ b ∈ bids, get_buffer drv b = none) :
    v4l2_RenderPicture drv cid bids = (drv, VAStatus.errorInvalidContext) ∧
    v4l2_EndPicture drv cid k ev = (drv, VAStatus.errorInvalidContext, []) ∧
    v4l2_SyncSurface drv sid evs = (drv, VAStatus.errorInvalidSurface, 0) ∧
    v4l2_DestroyBuffer drv bid = (drv, VAStatus.success) ∧
    v4l2_RenderPicture drv rid bids = (drv, VAStatus.success) := by
  refine ⟨?_, ?_, ?_, ?_, ?_⟩
  · unfold v4l2_RenderPicture
    rw [hc]
  · unfold v4l2_EndPicture
    rw [hc]
  · unfold v4l2_SyncSurface
    rw [hs]
  · unfold v4l2_DestroyBuffer
    simp only []
    by_cases hin : 0 ≤ BUFFER_INDEX bid ∧ BUFFER_INDEX bid < (MAX_BUFFERS : Int)
    · have hE : drv.buffers.getD (BUFFER_INDEX bid).toNat none = none := by
        unfold get_buffer table_get at hb
        rwa [if_pos hin] at hb
      rw [if_pos hin, hE]
    · rw [if_neg hin]
  · have hidx : 0 ≤ CONTEXT_INDEX rid ∧ CONTEXT_INDEX rid < (MAX_PROFILES : Int) := by
      by_contra hcon
      unfold get_context table_get at hr
      rw [if_neg hcon] at hr
      exact Option.noConfusion hr
    have hentry : drv.contexts.getD (CONTEXT_INDEX rid).toNat none = some ctx0 := by
      unfold get_context table_get at hr
      rwa [if_pos hidx] at hr
    have hset : set_context drv rid ctx0 = drv := by
      unfold set_context
      rw [set_getD_self _ _ _ hentry]
    rw [renderPicture_some drv rid ctx0 bids hr, foldl_render_skip drv bids hall _]
    show ({ set_context drv rid ctx0 with hevcGlobals := drv.hevcGlobals },
          VAStatus.success) = (drv, VAStatus.success)
    rw [hset]

theorem C5_unknown_handle_amended_witness :
    v4l2_RenderPicture c5Drv 4098 [12289] = (c5Drv, VAStatus.errorInvalidContext) ∧
    v4l2_EndPicture c5Drv 4098 quietOracle none = (c5Drv, VAStatus.errorInvalidContext, []) ∧
    v4l2_SyncSurface c5Drv 8193 [] = (c5Drv, VAStatus.errorInvalidSurface, 0) ∧
    v4l2_DestroyBuffer c5Drv 12289 = (c5Drv, VAStatus.success) ∧
    v4l2_RenderPicture c5Drv 4097 [12289] = (c5Drv, VAStatus.success) :=
  C5_unknown_handle_amended c5Drv 4098 8193 12289 4097 (freshCtx CodecKind.h264)
    [12289] quietOracle none [] (by decide) (by decide) (by decide) (by decide)
    (by decide)

/-- Every action the reclaim drain records is an OUTPUT dequeue. -/
theorem reclaim_trace_dqbuf (ctx : V4L2Ctx) (evts : List Nat) :
    ∀ a ∈ (v4l2_reclaim_output_buffers ctx evts).2,
      ∃ idx, a = KAction.dqbufOutput idx := by
  intro a ha
  unfold v4l2_reclaim_output_buffers at ha
  by_cases h : ctx.streaming_output = true
  · rw [if_pos h] at ha
    simp only [List.mem_map] at ha
    obtain ⟨idx, _, heq⟩ := ha
    exact ⟨idx, heq.symm⟩
  · rw [if_neg h] at ha
    exact absurd ha (List.not_mem_nil a)

/-- C10: when the assembled bitstream exceeds the mapped length of the
selected OUTPUT buffer, v4l2_queue_bitstream fails before copying or
queueing anything — it returns -1 with the merely-reclaimed session and
a kernel trace containing no copyBitstream and no qbufOutput action —
and v4l2_EndPicture maps this failure to the operation-failed status. -/
theorem C10_oversize_bitstream_atomic_failure
    (drv : V4L2DriverState) (cid : Nat) (ctx : V4L2Ctx) (k : KernelOracle)
    (ev : Option Nat) (i : Nat) (ob : MBuf)
    (hctx : get_context drv cid = some ctx)
    (hne : 0 < ctx.bitstream.length)
    (hsel : find_free_output (v4l2_reclaim_output_buffers ctx k.reclaim).1.output_buffers
      = some i)
    (hget : (v4l2_reclaim_output_buffers ctx k.reclaim).1.output_buffers.get? i = some ob)
    (hlen : (ob.length : Int) < (ctx.bitstream.length : Int)) :
    v4l2_queue_bitstream ctx ctx.bitstream.length k =
      ((v4l2_reclaim_output_buffers ctx k.reclaim).1, -1,
       (v4l2_reclaim_output_buffers ctx k.reclaim).2) ∧
    (∀ a ∈ (v4l2_queue_bitstream ctx ctx.bitstream.length k).2.2,
       (∀ j sz, a ≠ KAction.copyBitstream j sz) ∧ (∀ j, a ≠ KAction.qbufOutput j)) ∧
    (v4l2_EndPicture drv cid k ev).2.1 = VAStatus.errorOperationFailed := by
  have hnc : ¬(some i = none ∧
      (v4l2_reclaim_output_buffers ctx k.reclaim).1.streaming_output = true) :=
    fun hcon => Option.noConfusion hcon.1
  have h1 : v4l2_queue_bitstream ctx ctx.bitstream.length k =
      ((v4l2_reclaim_output_buffers ctx k.reclaim).1, -1,
       (v4l2_reclaim_output_buffers ctx k.reclaim).2) := by
    unfold v4l2_queue_bitstream
    simp only []
    rw [hsel, if_neg hnc]
    simp only []
    rw [hget]
    simp only []
    rw [if_pos hlen]
    simp only [List.append_nil]
  have h2 : ∀ a ∈ (v4l2_queue_bitstream ctx ctx.bitstream.length k).2.2,
      (∀ j sz, a ≠ KAction.copyBitstream j sz) ∧ (∀ j, a ≠ KAction.qbufOutput j) := by
    intro a ha
    rw [h1] at ha
    have ha2 : a ∈ (v4l2_reclaim_output_buffers ctx k.reclaim).2 := ha
    obtain ⟨idx, rfl⟩ := reclaim_trace_dqbuf ctx k.reclaim a ha2
    exact ⟨fun j sz h => KAction.noConfusion h, fun j h => KAction.noConfusion h⟩
  refine ⟨h1, h2, ?_⟩
  unfold v4l2_EndPicture
  rw [hctx]
  simp only []
  rw [if_pos hne, h1]
  simp only []
  rw [if_pos (show (-1 : Int) < 0 by decide)]

theorem C10_oversize_bitstream_atomic_failure_witness :
    v4l2_queue_bitstream c10Ctx c10Ctx.bitstream.length quietOracle =
      ((v4l2_reclaim_output_buffers c10Ctx quietOracle.reclaim).1, -1,
       (v4l2_reclaim_output_buffers c10Ctx quietOracle.reclaim).2) ∧
    (∀ a ∈ (v4l2_queue_bitstream c10Ctx c10Ctx.bitstream.length quietOracle).2.2,
       (∀ j sz, a ≠ KAction.copyBitstream j sz) ∧ (∀ j, a ≠ KAction.qbufOutput j)) ∧
    (v4l2_EndPicture c10Drv 4097 quietOracle none).2.1 = VAStatus.errorOperationFailed :=
  C10_oversize_bitstream_atomic_failure c10Drv 4097 c10Ctx quietOracle none 0 ⟨10, false⟩
    (by decide) (by decide) (by decide) (by decide) (by decide)
